import Mathlib

/-!
# The python plug-in bridge of FORCE (`src/higher-level/py-plugin-hl.c`)

A shallow embedding of `init_pyp`, `test_pyp`, `tsa_python_plugin` and
`ard_python_plugin`, and the properties of the plug-in bridge proved or
refuted on it.

* Host memory reached through a C pointer (`short *`, `short **`, `date_t *`)
  is a total map from indices to values: the C code cannot see the extent of
  what the host hands in.  Distinct host rows are distinct memory.
* Arrays owned by the embedded interpreter carry their dimensions; an access
  through their data pointer that leaves the allocation is undefined
  behaviour and stops the run.  What the apply entry point hands back is
  `NULL` or a C-contiguous array of 16-bit or of 32-bit integers; the copy-out
  loop reads its buffer through a `short *`.  Allocations succeed.
* The counts `nt`, `nb`, `nc` received as `int` are natural numbers: they are
  the sizes of buffers.  The channel count stored in the descriptor is an
  `int` and is kept as an integer, with the conversion that stores it.
* The interpreter itself is a parameter (`Runtime`): a record saying what each
  interpreter or libc call gives back.  Every interpreter call, stream call
  and `memcpy` the C code makes is appended to a trace, so that "this call
  was (not) made" is a statement about the trace.
* A run ends in a normal return, in `exit(FAILURE)`, or in undefined
  behaviour; in each case the world reached so far is kept.
-/

namespace Force

/-! ## Data model -/

/-- Modelled from the spec: the completion codes `SUCCESS`, `FAILURE` and
`CANCEL` are macros defined outside this file; the spec asks for a no-op
signal that is distinct from success. -/
inductive RetCode where
  | SUCCESS
  | FAILURE
  | CANCEL
  deriving DecidableEq, Repr

/-- Stream handle returned by `fopen` (`FILE *` when not `NULL`). -/
abbrev FILE := Nat

/-- Identity of a callable found in the interpreter's global dictionary. -/
abbrev PyFun := Nat

/-- Dictionary of `__main__`: which names resolve, and to what. -/
abbrev Globals := String → Option PyFun

/-- The four fields of `date_t` this file reads. -/
structure date_t where
  ce : Int
  year : Int
  month : Int
  day : Int
  deriving DecidableEq, Repr

/-- The fields of `par_pyp_t` this file reads or writes. -/
structure par_pyp_t where
  opyp : Bool
  f_code : String
  nb : Int
  deriving DecidableEq, Repr

/-- The `tsa` member of `par_hl_t`: only `pyp` is used here. -/
structure par_tsa_t where
  pyp : par_pyp_t
  deriving DecidableEq, Repr

/-- The `plg` member of `par_hl_t`: only `pyp` is used here. -/
structure par_plg_t where
  pyp : par_pyp_t
  deriving DecidableEq, Repr

/-- The fields of `par_hl_t` this file reads. -/
structure par_hl_t where
  tsa : par_tsa_t
  plg : par_plg_t
  cthread : Int
  deriving DecidableEq, Repr

/-- The fields of `tsa_t` this file uses: `tsi_[t][p]`, `d_tsi[t]`, and the
output rows `pyp_[b][p]` (`none` is the `NULL` pointer). -/
structure tsa_t where
  tsi_ : Nat → Nat → Int
  d_tsi : Nat → date_t
  pyp_ : Option (Nat → Nat → Int)

/-- Handle of a brick (`brick_t *`); what it holds is reached through
`get_brick_date` only. -/
abbrev brick_t := Nat

/-- The fields of `ard_t` this file reads: `dat[b][p]` and the brick `DAT`. -/
structure ard_t where
  dat : Nat → Nat → Int
  DAT : brick_t

/-- The field of `plg_t` this file uses: the output rows `pyp_[b][p]`. -/
structure plg_t where
  pyp_ : Option (Nat → Nat → Int)

/-- Element types handed to `PyArray_SimpleNew`. -/
inductive NpyType where
  | NPY_INT16
  | NPY_INT
  deriving DecidableEq, Repr

/-- An array of the interpreter: dimensions, element type, and the contents
seen through `PyArray_DATA`, indexed flat in row-major order. -/
structure PyArrayObject where
  dims : List Nat
  ty : NpyType
  data : Nat → Int

/-- Number of elements of an array. -/
def PyArrayObject.size (a : PyArrayObject) : Nat :=
  a.dims.prod

/-- The signed value of the low 16 bits of `x`. -/
def toInt16 (x : Int) : Int :=
  (x + 2 ^ 15) % 2 ^ 16 - 2 ^ 15

/-- Number of `short`s the buffer of an array holds: one per element of a
16-bit array, two per element of an `int` array. -/
def PyArrayObject.nshort (a : PyArrayObject) : Nat :=
  match a.ty with
  | .NPY_INT16 => a.size
  | .NPY_INT => 2 * a.size

/-- The buffer of an array read through `(short*)PyArray_DATA(a)`: the
elements themselves for a 16-bit array; for an `int` array (32 bits, two's
complement, little-endian) element `i` is seen as its low half at `2i` and
its high half at `2i + 1`. -/
def PyArrayObject.shorts (a : PyArrayObject) (j : Nat) : Int :=
  match a.ty with
  | .NPY_INT16 => a.data j
  | .NPY_INT =>
    if j % 2 = 0 then toInt16 (a.data (j / 2)) else toInt16 (a.data (j / 2) / 2 ^ 16)

/-- The object an initializer hands back: `len` is its length as a sequence
(what `len()` answers) and `ob_size` what the macro `Py_SIZE` reads in its
`ob_size` slot.  A list or a tuple keeps its length in that slot; other
sequences (a `range`, an instance of a user class) do not. -/
structure PyObject where
  len : Nat
  ob_size : Int
  deriving DecidableEq, Repr

/-- The seven positional arguments of the apply entry point. -/
structure Args where
  data : PyArrayObject
  ce : PyArrayObject
  year : PyArrayObject
  month : PyArrayObject
  day : PyArrayObject
  nodata : Int
  nproc : Int

/-- The interpreter-owned references the C code holds in local variables. -/
inductive Var where
  | py_register
  | py_return
  | py_data
  | py_ce
  | py_year
  | py_month
  | py_day
  | py_nodata
  | py_nproc
  deriving DecidableEq, Repr

/-- One entry per interpreter or libc call made by the C code. -/
inductive Event where
  | PyImport_AddModule (name : String)
  | PyModule_GetDict
  | fopen (path : String) (fp : Option FILE)
  | PyRun_SimpleFile (fp : Option FILE) (path : String)
  | PyDict_GetItemString (key : String)
  | PyLong_FromLong (v : Int)
  | PyArray_SimpleNew (dims : List Nat) (ty : NpyType)
  | memcpy_in (off : Nat) (n : Nat)
  | call_init (f : PyFun)
  | call_apply (f : PyFun) (args : Args)
  | Py_SIZE
  | memcpy_out (b : Nat) (n : Nat)
  | Py_DECREF (v : Var)
  | fclose (fp : Option FILE)

/-- What the embedded interpreter, the C library and the host functions
defined outside this file answer.  `junk` is the content of freshly allocated
array memory, `rand k` the value of the `k`-th call of `rand()`, `date2ce`
the host conversion to a linear day count and `get_brick_date brick b` the
host date of band `b` of a brick. -/
structure Runtime where
  fopen : String → Option FILE
  PyRun_SimpleFile : Option FILE → String → Globals → Option Globals
  call_init : PyFun → Option PyObject
  call_apply : PyFun → Args → Option PyArrayObject
  junk : Nat → Int
  rand : Nat → Nat
  date2ce : Int → Int → Int → Int
  get_brick_date : brick_t → Nat → date_t

/-- State of the process outside the host buffers: the global dictionary of
the interpreter, the number of interpreter references the bridge owns, the
calls made so far, and what was printed. -/
structure World where
  globals : Globals
  live : Int
  trace : List Event
  stdout : List String

/-- How a run can end without returning: `exit(code)`, or undefined behaviour
of the C program (which includes a call the interpreter does not come back
from). -/
inductive Stop where
  | exit (code : RetCode)
  | undefined
  deriving DecidableEq, Repr

/-- Result of running a piece of C code from a world. -/
inductive Res (α : Type) where
  | ok (a : α) (w : World)
  | stop (s : Stop) (w : World)

/-- C code with side effects on the world. -/
def M (α : Type) : Type := World → Res α

/-- Sequencing: a stop ends the run and keeps the world reached. -/
def M.bind {α β : Type} (m : M α) (f : α → M β) : M β := fun w =>
  match m w with
  | .ok a w1 => f a w1
  | .stop s w1 => .stop s w1

instance : Monad M where
  pure a := fun w => .ok a w
  bind := M.bind

/-- World in which a run ends. -/
def Res.world {α : Type} : Res α → World
  | .ok _ w => w
  | .stop _ w => w

/-! ## Primitive operations -/

/-- Append a call to the trace. -/
def emit (e : Event) : M Unit := fun w =>
  .ok () { w with trace := w.trace ++ [e] }

/-- The call `printf(s)`, with its format already filled in. -/
def printf (s : String) : M Unit := fun w =>
  .ok () { w with stdout := w.stdout ++ [s] }

/-- The text of `printf("Python function \"%s\" was not found. Check your
python plugin code!\n", name)`. -/
def notFound (name : String) : String :=
  "Python function \"" ++ name ++ "\" was not found. Check your python plugin code!\n"

/-- The call `exit(code)`. -/
def exit {α : Type} (code : RetCode) : M α := fun w =>
  .stop (.exit code) w

/-- Undefined behaviour of the C program. -/
def undefined {α : Type} : M α := fun w =>
  .stop .undefined w

/-- Conversion of a `Py_ssize_t` or `long` to `int` (two's complement). -/
def toInt32 (x : Int) : Int :=
  (x + 2 ^ 31) % 2 ^ 32 - 2 ^ 31

/-- The call `PyImport_AddModule(name)`: a borrowed reference. -/
def PyImport_AddModule (name : String) : M Unit :=
  emit (.PyImport_AddModule name)

/-- The call `PyModule_GetDict(module)`: a borrowed reference. -/
def PyModule_GetDict (_module : Unit) : M Unit :=
  emit .PyModule_GetDict

/-- The call `fopen(path, "r")`. -/
def fopen (R : Runtime) (path : String) : M (Option FILE) := do
  emit (.fopen path (R.fopen path))
  return R.fopen path

/-- The call `PyRun_SimpleFile(fp, path)`: the interpreter rewrites its
global dictionary, or does not come back. -/
def PyRun_SimpleFile (R : Runtime) (fp : Option FILE) (path : String) : M Unit := do
  emit (.PyRun_SimpleFile fp path)
  fun w =>
    match R.PyRun_SimpleFile fp path w.globals with
    | some g => .ok () { w with globals := g }
    | none => .stop .undefined w

/-- The call `PyDict_GetItemString(main_dict, key)`: a borrowed reference or
`NULL`. -/
def PyDict_GetItemString (_dict : Unit) (key : String) : M (Option PyFun) := do
  emit (.PyDict_GetItemString key)
  fun w => .ok (w.globals key) w

/-- A new reference is handed to the C code. -/
def newRef : M Unit := fun w =>
  .ok () { w with live := w.live + 1 }

/-- The call `PyLong_FromLong(v)`: a new reference. -/
def PyLong_FromLong (v : Int) : M Int := do
  emit (.PyLong_FromLong v)
  newRef
  return v

/-- The call `PyArray_SimpleNew(nd, dims, ty)`: a new reference to an array
whose memory is not initialised. -/
def PyArray_SimpleNew (R : Runtime) (nd : Nat) (dims : List Nat) (ty : NpyType) :
    M PyArrayObject := do
  emit (.PyArray_SimpleNew (dims.take nd) ty)
  newRef
  return { dims := dims.take nd, ty := ty, data := R.junk }

/-- The macro `Py_DECREF(v)`: the C code gives one reference back. -/
def Py_DECREF (v : Var) : M Unit := do
  emit (.Py_DECREF v)
  fun w => .ok () { w with live := w.live - 1 }

/-- The call `fclose(fp)`; on a null stream it is undefined. -/
def fclose (fp : Option FILE) : M Unit := do
  emit (.fclose fp)
  match fp with
  | some _ => return ()
  | none => undefined

/-- The statement `a_[i] = v` through the data pointer of array `a`, typed as
the elements of `a` are. -/
def store (a : PyArrayObject) (i : Nat) (v : Int) : M PyArrayObject :=
  if i < a.size then
    return { a with data := fun j => if j = i then v else a.data j }
  else undefined

/-- The call `memcpy(a_ + off, src, sizeof(short)*n)` into the data of the
16-bit array `a` (the code only does this on `py_data`, which it created as
`NPY_INT16`). -/
def memcpy_in (a : PyArrayObject) (off : Nat) (src : Nat → Int) (n : Nat) :
    M PyArrayObject := do
  emit (.memcpy_in off n)
  if off + n ≤ a.size then
    return { a with data := fun i => if off ≤ i ∧ i < off + n then src (i - off) else a.data i }
  else undefined

/-- The call `memcpy(dst, a_ + off, sizeof(short)*n)` into host row `b`, where
`a_` is `(short*)PyArray_DATA(a)`: `n` shorts of the buffer of `a` are copied,
whatever the element type of `a` is. -/
def memcpy_out (b : Nat) (dst : Nat → Int) (a : PyArrayObject) (off : Nat) (n : Nat) :
    M (Nat → Int) := do
  emit (.memcpy_out b n)
  if off + n ≤ a.nshort then
    return fun p => if p < n then a.shorts (off + p) else dst p
  else undefined

/-- The loop `for (i=0; i<n; i++) body`, threading the variables it changes. -/
def forLoop {σ : Type} (n : Nat) (body : Nat → σ → M σ) (s : σ) : M σ :=
  match n with
  | 0 => pure s
  | k + 1 => do
    let s1 ← forLoop k body s
    body k s1

/-- The call `PyObject_CallFunctionObjArgs(py_fun, NULL)` of the initializer:
a new reference, or `NULL`. -/
def call_init (R : Runtime) (py_fun : PyFun) : M (Option PyObject) := do
  emit (.call_init py_fun)
  match R.call_init py_fun with
  | some o => do
    newRef
    return some o
  | none => return none

/-- The call `PyObject_CallFunctionObjArgs(py_fun, py_data, py_ce, py_year,
py_month, py_day, py_nodata, py_nproc, NULL)`: a new reference, or `NULL`. -/
def call_apply (R : Runtime) (py_fun : PyFun) (args : Args) : M (Option PyArrayObject) := do
  emit (.call_apply py_fun args)
  match R.call_apply py_fun args with
  | some r => do
    newRef
    return some r
  | none => return none

/-- The macro `Py_SIZE(o)`; on `NULL` it is undefined. -/
def Py_SIZE (o : Option PyObject) : M Int := do
  emit .Py_SIZE
  match o with
  | some o => return o.ob_size
  | none => undefined

/-! ## The functions of `py-plugin-hl.c` -/

/-- The function `init_pyp` (lines 102-135); the descriptor it leaves behind
is its result. -/
def init_pyp (R : Runtime) (pyp : par_pyp_t) : M par_pyp_t :=
  if !pyp.opyp then
    return { pyp with nb := 1 }
  else do
    let main_module ← PyImport_AddModule "__main__"
    let main_dict ← PyModule_GetDict main_module
    -- parse the provided python function
    let fpy ← fopen R pyp.f_code
    PyRun_SimpleFile R fpy pyp.f_code
    let py_fun ← PyDict_GetItemString main_dict "forcepy_init"
    match py_fun with
    | none => do
      printf (notFound "forcepy_init")
      exit .FAILURE
    | some py_fun => do
      let py_register ← call_init R py_fun
      let n ← Py_SIZE py_register
      let pyp1 := { pyp with nb := toInt32 n }
      Py_DECREF .py_register
      fclose fpy
      return pyp1

/-- The local variables the copy-in loops change: the five arrays and the
write cursor `data_`, kept as its offset from `PyArray_DATA(py_data)`. -/
structure Locals where
  py_data : PyArrayObject
  data_ : Nat
  py_ce : PyArrayObject
  py_year : PyArrayObject
  py_month : PyArrayObject
  py_day : PyArrayObject

/-- The arguments of the apply call built from the locals. -/
def Locals.args (s : Locals) (py_nodata py_nproc : Int) : Args :=
  { data := s.py_data, ce := s.py_ce, year := s.py_year, month := s.py_month,
    day := s.py_day, nodata := py_nodata, nproc := py_nproc }

/-- Body of the loop of lines 327-334 of `tsa_python_plugin`. -/
def tsa_copy_in (ts : tsa_t) (nc : Nat) (t : Nat) (s : Locals) : M Locals := do
  let py_data ← memcpy_in s.py_data s.data_ (ts.tsi_ t) nc
  let data_ := s.data_ + nc
  let py_ce ← store s.py_ce t (ts.d_tsi t).ce
  let py_year ← store s.py_year t (ts.d_tsi t).year
  let py_month ← store s.py_month t (ts.d_tsi t).month
  let py_day ← store s.py_day t (ts.d_tsi t).day
  return { py_data := py_data, data_ := data_, py_ce := py_ce, py_year := py_year,
           py_month := py_month, py_day := py_day }

/-- The variables the copy-out loops change: the host rows and the read
cursor `return_`, kept as its offset from `PyArray_DATA(py_return)`. -/
structure OutLocals where
  pyp_ : Nat → Nat → Int
  return_ : Nat

/-- Body of the loops of lines 346-349 and 452-455. -/
def copy_out (py_return : PyArrayObject) (nc : Nat) (b : Nat) (s : OutLocals) :
    M OutLocals := do
  let row ← memcpy_out b (s.pyp_ b) py_return s.return_ nc
  return { pyp_ := fun b1 => if b1 = b then row else s.pyp_ b1, return_ := s.return_ + nc }

/-- The function `tsa_python_plugin` (lines 268-367); the result is the
returned code and the `tsa_t` it leaves behind. -/
def tsa_python_plugin (R : Runtime) (ts : tsa_t) (_mask_ : Nat → Int) (nc nt : Nat)
    (nodata : Int) (phl : par_hl_t) : M (RetCode × tsa_t) :=
  let nb := 1
  match ts.pyp_ with
  | none => return (.CANCEL, ts)
  | some pyp_ => do
    let main_module ← PyImport_AddModule "__main__"
    let main_dict ← PyModule_GetDict main_module
    let fpy ← fopen R phl.tsa.pyp.f_code
    PyRun_SimpleFile R fpy phl.tsa.pyp.f_code
    let py_fun ← PyDict_GetItemString main_dict "forcepy_"
    match py_fun with
    | none => do
      printf (notFound "forcepy_")
      exit .FAILURE
    | some py_fun => do
      let py_nodata ← PyLong_FromLong nodata
      let py_nproc ← PyLong_FromLong phl.cthread
      let py_data ← PyArray_SimpleNew R 3 [nt, nb, nc] .NPY_INT16
      let py_ce ← PyArray_SimpleNew R 1 [nt] .NPY_INT
      let py_year ← PyArray_SimpleNew R 1 [nt] .NPY_INT
      let py_month ← PyArray_SimpleNew R 1 [nt] .NPY_INT
      let py_day ← PyArray_SimpleNew R 1 [nt] .NPY_INT
      -- copy C data to python objects
      let s ← forLoop nt (tsa_copy_in ts nc)
        { py_data := py_data, data_ := 0, py_ce := py_ce, py_year := py_year,
          py_month := py_month, py_day := py_day }
      let py_return ← call_apply R py_fun (s.args py_nodata py_nproc)
      match py_return with
      | none => do
        printf "Oops. NULL returned from python. Clean up the python plugin code!\n"
        exit .FAILURE
      | some py_return => do
        -- copy to output brick
        let o ← forLoop phl.tsa.pyp.nb.toNat (copy_out py_return nc)
          { pyp_ := pyp_, return_ := 0 }
        -- clean
        Py_DECREF .py_return
        Py_DECREF .py_data
        Py_DECREF .py_ce
        Py_DECREF .py_year
        Py_DECREF .py_month
        Py_DECREF .py_day
        Py_DECREF .py_nodata
        Py_DECREF .py_nproc
        fclose fpy
        return (.SUCCESS, { ts with pyp_ := some o.pyp_ })

/-- The variables the inner loop of `ard_python_plugin` changes. -/
structure DataLocals where
  py_data : PyArrayObject
  data_ : Nat

/-- Body of the inner loop of lines 431-434 of `ard_python_plugin`. -/
def ard_copy_band (ard : Nat → ard_t) (nc : Nat) (t : Nat) (b : Nat) (s : DataLocals) :
    M DataLocals := do
  let py_data ← memcpy_in s.py_data s.data_ ((ard t).dat b) nc
  return { py_data := py_data, data_ := s.data_ + nc }

/-- Body of the outer loop of lines 430-440 of `ard_python_plugin`. -/
def ard_copy_in (R : Runtime) (ard : Nat → ard_t) (nb nc : Nat) (t : Nat) (s : Locals) :
    M Locals := do
  let d ← forLoop nb (ard_copy_band ard nc t) { py_data := s.py_data, data_ := s.data_ }
  let date := R.get_brick_date (ard t).DAT 0
  let py_ce ← store s.py_ce t date.ce
  let py_year ← store s.py_year t date.year
  let py_month ← store s.py_month t date.month
  let py_day ← store s.py_day t date.day
  return { py_data := d.py_data, data_ := d.data_, py_ce := py_ce, py_year := py_year,
           py_month := py_month, py_day := py_day }

/-- The function `ard_python_plugin` (lines 370-473); the result is the
returned code and the `plg_t` it leaves behind. -/
def ard_python_plugin (R : Runtime) (ard : Nat → ard_t) (plg : plg_t) (_mask_ : Nat → Int)
    (nt nb nc : Nat) (nodata : Int) (phl : par_hl_t) : M (RetCode × plg_t) :=
  match plg.pyp_ with
  | none => return (.CANCEL, plg)
  | some pyp_ => do
    let main_module ← PyImport_AddModule "__main__"
    let main_dict ← PyModule_GetDict main_module
    let fpy ← fopen R phl.plg.pyp.f_code
    PyRun_SimpleFile R fpy phl.plg.pyp.f_code
    let py_fun ← PyDict_GetItemString main_dict "forcepy_"
    match py_fun with
    | none => do
      printf (notFound "forcepy_")
      exit .FAILURE
    | some py_fun => do
      let py_nodata ← PyLong_FromLong nodata
      let py_nproc ← PyLong_FromLong phl.cthread
      let py_data ← PyArray_SimpleNew R 3 [nt, nb, nc] .NPY_INT16
      let py_ce ← PyArray_SimpleNew R 1 [nt] .NPY_INT
      let py_year ← PyArray_SimpleNew R 1 [nt] .NPY_INT
      let py_month ← PyArray_SimpleNew R 1 [nt] .NPY_INT
      let py_day ← PyArray_SimpleNew R 1 [nt] .NPY_INT
      -- copy C data to python objects
      let s ← forLoop nt (ard_copy_in R ard nb nc)
        { py_data := py_data, data_ := 0, py_ce := py_ce, py_year := py_year,
          py_month := py_month, py_day := py_day }
      let py_return ← call_apply R py_fun (s.args py_nodata py_nproc)
      match py_return with
      | none => do
        printf "Oops. NULL returned from python. Clean up the python plugin code!\n"
        exit .FAILURE
      | some py_return => do
        -- copy to output brick
        let o ← forLoop phl.plg.pyp.nb.toNat (copy_out py_return nc)
          { pyp_ := pyp_, return_ := 0 }
        -- clean
        Py_DECREF .py_return
        Py_DECREF .py_data
        Py_DECREF .py_ce
        Py_DECREF .py_year
        Py_DECREF .py_month
        Py_DECREF .py_day
        Py_DECREF .py_nodata
        Py_DECREF .py_nproc
        fclose fpy
        return (.SUCCESS, { plg with pyp_ := some o.pyp_ })

/-- The read `a_[i]` through the data pointer of array `a`, typed as the
elements of `a` are. -/
def load (a : PyArrayObject) (i : Nat) : M Int :=
  if i < a.size then return a.data i else undefined

/-- Body of the innermost loop of line 205 of `test_pyp`: `k` counts both the
cells written and the calls of `rand()` made so far. -/
def test_fill_cell (R : Runtime) (_p : Nat) (s : DataLocals) : M DataLocals := do
  let py_data ← store s.py_data s.data_ (R.rand s.data_ % 10000)
  return { py_data := py_data, data_ := s.data_ + 1 }

/-- Body of the loop over `b` of lines 204-206 of `test_pyp`. -/
def test_fill_band (R : Runtime) (nc : Nat) (_b : Nat) (s : DataLocals) : M DataLocals :=
  forLoop nc (test_fill_cell R) s

/-- Body of the loop over `t` of lines 203-211 of `test_pyp`. -/
def test_fill (R : Runtime) (nb nc : Nat) (t : Nat) (s : Locals) : M Locals := do
  let d ← forLoop nb (test_fill_band R nc) { py_data := s.py_data, data_ := s.data_ }
  let py_year ← store s.py_year t 2020
  let py_month ← store s.py_month t (t + 1)
  let py_day ← store s.py_day t 15
  let y ← load py_year t
  let m ← load py_month t
  let dd ← load py_day t
  let py_ce ← store s.py_ce t (R.date2ce y m dd)
  return { py_data := d.py_data, data_ := d.data_, py_ce := py_ce, py_year := py_year,
           py_month := py_month, py_day := py_day }

/-- The function `test_pyp` (lines 143-256); the descriptor it leaves behind
is its result. -/
def test_pyp (R : Runtime) (pyp : par_pyp_t) : M par_pyp_t :=
  let nt := 5
  let nb := 1
  let nc := 10
  if !pyp.opyp then
    return { pyp with nb := 1 }
  else do
    let main_module ← PyImport_AddModule "__main__"
    let main_dict ← PyModule_GetDict main_module
    -- parse the provided python function
    let fpy ← fopen R pyp.f_code
    PyRun_SimpleFile R fpy pyp.f_code
    let py_fun ← PyDict_GetItemString main_dict "forcepy_"
    match py_fun with
    | none => do
      printf (notFound "forcepy_")
      exit .FAILURE
    | some py_fun => do
      -- test the provided python function with dummy data
      let py_nodata ← PyLong_FromLong (-9999)
      let py_nproc ← PyLong_FromLong 2
      let py_data ← PyArray_SimpleNew R 3 [nt, nb, nc] .NPY_INT16
      let py_ce ← PyArray_SimpleNew R 1 [nt] .NPY_INT
      let py_year ← PyArray_SimpleNew R 1 [nt] .NPY_INT
      let py_month ← PyArray_SimpleNew R 1 [nt] .NPY_INT
      let py_day ← PyArray_SimpleNew R 1 [nt] .NPY_INT
      let s ← forLoop nt (test_fill R nb nc)
        { py_data := py_data, data_ := 0, py_ce := py_ce, py_year := py_year,
          py_month := py_month, py_day := py_day }
      let py_return ← call_apply R py_fun (s.args py_nodata py_nproc)
      match py_return with
      | none => do
        printf ("Oops. Testing forcepy_tsi failed with dummy data. "
          ++ "NULL returned from python. "
          ++ "Clean up the python plugin code!\n")
        exit .FAILURE
      | some py_return =>
        let ndim := py_return.dims.length
        let dim := py_return.dims
        if ndim ≠ 2 then do
          printf ("Oops. Testing forcepy_tsi failed with dummy data. "
            ++ "Returned dimensions are incorrect: " ++ toString ndim ++ ". "
            ++ "Clean up the python plugin code!\n")
          exit .FAILURE
        else if (dim.getD 0 0 : Int) ≠ pyp.nb then do
          printf ("Oops. Testing forcepy_tsi failed with dummy data. "
            ++ "Returned array size is incorrect. "
            ++ "Expected " ++ toString pyp.nb ++ " elements in 1st dimension, received "
            ++ toString (toInt32 (dim.getD 0 0)) ++ ". "
            ++ "Clean up the python plugin code!\n")
          exit .FAILURE
        else if dim.getD 1 0 ≠ nc then do
          printf ("Oops. Testing forcepy_tsi failed with dummy data. "
            ++ "Returned array size is incorrect. "
            ++ "Expected " ++ toString nc
            ++ " elements in 2nd dimension (not all pixels returned), received "
            ++ toString (toInt32 (dim.getD 1 0)) ++ ". "
            ++ "Clean up the python plugin code!\n")
          exit .FAILURE
        else do
          Py_DECREF .py_return
          Py_DECREF .py_data
          Py_DECREF .py_ce
          Py_DECREF .py_year
          Py_DECREF .py_month
          Py_DECREF .py_day
          Py_DECREF .py_nodata
          Py_DECREF .py_nproc
          fclose fpy
          return pyp

/-! ## The drivers in closed form -/

/-- Contents of a buffer whose indices below `m` have been written with `F`
while the others still hold `old`. -/
def filled (F old : Nat → Int) (m : Nat) : Nat → Int :=
  fun i => if i < m then F i else old i

/-- The locals of `tsa_python_plugin` after `k` rounds of its copy-in loop. -/
def tsa_locals (R : Runtime) (ts : tsa_t) (nc nt k : Nat) : Locals :=
  { py_data := { dims := [nt, 1, nc], ty := .NPY_INT16,
                 data := filled (fun i => ts.tsi_ (i / nc) (i % nc)) R.junk (k * nc) },
    data_ := k * nc,
    py_ce := { dims := [nt], ty := .NPY_INT, data := filled (fun t => (ts.d_tsi t).ce) R.junk k },
    py_year := { dims := [nt], ty := .NPY_INT,
                 data := filled (fun t => (ts.d_tsi t).year) R.junk k },
    py_month := { dims := [nt], ty := .NPY_INT,
                  data := filled (fun t => (ts.d_tsi t).month) R.junk k },
    py_day := { dims := [nt], ty := .NPY_INT,
                data := filled (fun t => (ts.d_tsi t).day) R.junk k } }

/-- The arguments `tsa_python_plugin` hands to the apply entry point
(`tsa_python_plugin_eq` proves that the code builds exactly these). -/
def tsa_args (R : Runtime) (ts : tsa_t) (nc nt : Nat) (nodata : Int) (phl : par_hl_t) : Args :=
  (tsa_locals R ts nc nt nt).args nodata phl.cthread

/-- Value the copy-in loops of `ard_python_plugin` leave at flat index `i`. -/
def ard_flat (ard : Nat → ard_t) (nb nc : Nat) (i : Nat) : Int :=
  (ard (i / nc / nb)).dat (i / nc % nb) (i % nc)

/-- The locals of `ard_python_plugin` after `k` rounds of its outer copy-in
loop. -/
def ard_locals (R : Runtime) (ard : Nat → ard_t) (nt nb nc k : Nat) : Locals :=
  { py_data := { dims := [nt, nb, nc], ty := .NPY_INT16,
                 data := filled (ard_flat ard nb nc) R.junk (k * nb * nc) },
    data_ := k * nb * nc,
    py_ce := { dims := [nt], ty := .NPY_INT,
               data := filled (fun t => (R.get_brick_date (ard t).DAT 0).ce) R.junk k },
    py_year := { dims := [nt], ty := .NPY_INT,
                 data := filled (fun t => (R.get_brick_date (ard t).DAT 0).year) R.junk k },
    py_month := { dims := [nt], ty := .NPY_INT,
                  data := filled (fun t => (R.get_brick_date (ard t).DAT 0).month) R.junk k },
    py_day := { dims := [nt], ty := .NPY_INT,
                data := filled (fun t => (R.get_brick_date (ard t).DAT 0).day) R.junk k } }

/-- The arguments `ard_python_plugin` hands to the apply entry point
(`ard_python_plugin_eq` proves that the code builds exactly these). -/
def ard_args (R : Runtime) (ard : Nat → ard_t) (nt nb nc : Nat) (nodata : Int)
    (phl : par_hl_t) : Args :=
  (ard_locals R ard nt nb nc nt).args nodata phl.cthread

/-- The `memcpy` calls of the copy-in loop of `tsa_python_plugin`. -/
def tsa_copy_events (nc nt : Nat) : List Event :=
  (List.range nt).map (fun t => Event.memcpy_in (t * nc) nc)

/-- The `memcpy` calls of the first `k` rounds of the outer copy-in loop of
`ard_python_plugin`. -/
def ard_copy_events (nb nc : Nat) : Nat → List Event
  | 0 => []
  | k + 1 => ard_copy_events nb nc k ++
      (List.range nb).map (fun b => Event.memcpy_in ((k * nb + b) * nc) nc)

/-- The variables of the copy-out loop after `k` rounds over result `r`. -/
def out_locals (r : PyArrayObject) (nc : Nat) (out : Nat → Nat → Int) (k : Nat) : OutLocals :=
  { pyp_ := fun b => if b < k then (fun p => if p < nc then r.shorts (b * nc + p) else out b p)
                     else out b,
    return_ := k * nc }

/-- The calls every configured run of a driver starts with. -/
def setup_events (path : String) (fp : Option FILE) : List Event :=
  [.PyImport_AddModule "__main__", .PyModule_GetDict, .fopen path fp,
   .PyRun_SimpleFile fp path, .PyDict_GetItemString "forcepy_"]

/-- The calls that create the seven arguments of the apply entry point. -/
def alloc_events (dims : List Nat) (nt : Nat) (nodata cthread : Int) : List Event :=
  [.PyLong_FromLong nodata, .PyLong_FromLong cthread, .PyArray_SimpleNew dims .NPY_INT16,
   .PyArray_SimpleNew [nt] .NPY_INT, .PyArray_SimpleNew [nt] .NPY_INT,
   .PyArray_SimpleNew [nt] .NPY_INT, .PyArray_SimpleNew [nt] .NPY_INT]

/-- The calls that end a successful run of a driver. -/
def release_events (fp : Option FILE) : List Event :=
  [.Py_DECREF .py_return, .Py_DECREF .py_data, .Py_DECREF .py_ce, .Py_DECREF .py_year,
   .Py_DECREF .py_month, .Py_DECREF .py_day, .Py_DECREF .py_nodata, .Py_DECREF .py_nproc,
   .fclose fp]

/-- Loop-free description of a run of either driver: `pyp_` are the output
rows of the call site, `keep` and `put` the host structure without and with
new output rows, `path` and `nb` the source path and channel count of the
descriptor, `dims` the shape of the data array, `copied` the `memcpy` calls of
the copy-in loop and `args` the arguments it builds.  The two `_eq` theorems
prove that the drivers run exactly like this. -/
def plugin_run {β : Type} (R : Runtime) (pyp_ : Option (Nat → Nat → Int)) (keep : β)
    (put : (Nat → Nat → Int) → β) (path : String) (nb : Int) (dims : List Nat)
    (nt nc : Nat) (nodata cthread : Int) (copied : List Event) (args : Args)
    (w : World) : Res (RetCode × β) :=
  match pyp_ with
  | none => .ok (.CANCEL, keep) w
  | some out =>
    let fp := R.fopen path
    match R.PyRun_SimpleFile fp path w.globals with
    | none => .stop .undefined
        { w with trace := w.trace ++ [.PyImport_AddModule "__main__", .PyModule_GetDict,
            .fopen path fp, .PyRun_SimpleFile fp path] }
    | some g =>
      match g "forcepy_" with
      | none => .stop (.exit .FAILURE)
          { globals := g, live := w.live, trace := w.trace ++ setup_events path fp,
            stdout := w.stdout ++ [notFound "forcepy_"] }
      | some f =>
        let t1 := w.trace ++ setup_events path fp ++ alloc_events dims nt nodata cthread
          ++ copied ++ [.call_apply f args]
        match R.call_apply f args with
        | none => .stop (.exit .FAILURE)
            { globals := g, live := w.live + 7, trace := t1,
              stdout := w.stdout ++
                ["Oops. NULL returned from python. Clean up the python plugin code!\n"] }
        | some r =>
          if nb.toNat * nc ≤ r.nshort then
            let w2 : World :=
              { globals := g, live := w.live,
                trace := t1 ++ (List.range nb.toNat).map (fun b => Event.memcpy_out b nc)
                  ++ release_events fp,
                stdout := w.stdout }
            match fp with
            | some _ => .ok (.SUCCESS, put (out_locals r nc out nb.toNat).pyp_) w2
            | none => .stop .undefined w2
          else .stop .undefined
            { globals := g, live := w.live + 8,
              trace := t1 ++ (List.range (r.nshort / nc + 1)).map (fun b => Event.memcpy_out b nc),
              stdout := w.stdout }

/-! ## Reading a trace -/

/-- The apply call an event stands for, if any. -/
def Event.asApply : Event → Option (PyFun × Args)
  | .call_apply f a => some (f, a)
  | _ => none

/-- The apply calls of a trace, in order, each with its arguments. -/
def applyCalls (l : List Event) : List (PyFun × Args) :=
  l.filterMap Event.asApply

/-- The reference an event gives back, if any. -/
def Event.asRelease : Event → Option Var
  | .Py_DECREF v => some v
  | _ => none

/-- The references given back along a trace, in order. -/
def released (l : List Event) : List Var :=
  l.filterMap Event.asRelease

/-- Calls that hand the C code a new reference when they succeed. -/
def Event.creates : Event → Bool
  | .PyLong_FromLong _ => true
  | .PyArray_SimpleNew _ _ => true
  | .call_apply _ _ => true
  | .call_init _ => true
  | _ => false

/-- The creating calls of a trace, in order. -/
def created (l : List Event) : List Event :=
  l.filter Event.creates

/-- Lookups and calls of the initializer `forcepy_init`. -/
def Event.touchesInit : Event → Bool
  | .call_init _ => true
  | .PyDict_GetItemString key => key == "forcepy_init"
  | _ => false

/-- The lookups and calls of the initializer in a trace. -/
def initCalls (l : List Event) : List Event :=
  l.filter Event.touchesInit

/-- The host row an event writes, if any. -/
def Event.asOutRow : Event → Option Nat
  | .memcpy_out b _ => some b
  | _ => none

/-- The host rows written along a trace, in order. -/
def outRows (l : List Event) : List Nat :=
  l.filterMap Event.asOutRow

/-- The `memcpy` calls. -/
def Event.isMemcpy : Event → Bool
  | .memcpy_in _ _ => true
  | .memcpy_out _ _ => true
  | _ => false

/-! ## Vocabulary of the statements -/

/-- The four calendar arrays of `a` have length `nt`, element type `NPY_INT`,
and hold the fields of date `d t` at every index `t < nt`. -/
def CalendarOf (a : Args) (nt : Nat) (d : Nat → date_t) : Prop :=
  a.ce.dims = [nt] ∧ a.year.dims = [nt] ∧ a.month.dims = [nt] ∧ a.day.dims = [nt]
  ∧ a.ce.ty = .NPY_INT ∧ a.year.ty = .NPY_INT ∧ a.month.ty = .NPY_INT ∧ a.day.ty = .NPY_INT
  ∧ ∀ t, t < nt →
      a.ce.data t = (d t).ce ∧ a.year.data t = (d t).year
      ∧ a.month.data t = (d t).month ∧ a.day.data t = (d t).day

/-- The source at `path` opens as stream `fp`, the interpreter comes back
from running it with global dictionary `g`, and `g` resolves `forcepy_` to
`f`. -/
def Loaded (R : Runtime) (path : String) (w : World) (fp : FILE) (g : Globals) (f : PyFun) :
    Prop :=
  R.fopen path = some fp ∧ R.PyRun_SimpleFile (some fp) path w.globals = some g
  ∧ g "forcepy_" = some f

/-- One invocation of a driver by the host, with everything it is given. -/
inductive Invocation where
  | tsa (R : Runtime) (ts : tsa_t) (mask_ : Nat → Int) (nc nt : Nat) (nodata : Int)
      (phl : par_hl_t)
  | ard (R : Runtime) (ard : Nat → ard_t) (plg : plg_t) (mask_ : Nat → Int) (nt nb nc : Nat)
      (nodata : Int) (phl : par_hl_t)

/-- The world an invocation leaves behind when it returns `SUCCESS`. -/
def Invocation.success (c : Invocation) (w : World) : Option World :=
  match c with
  | .tsa R ts mask_ nc nt nodata phl =>
    match tsa_python_plugin R ts mask_ nc nt nodata phl w with
    | .ok (.SUCCESS, _) w1 => some w1
    | _ => none
  | .ard R obs plg mask_ nt nb nc nodata phl =>
    match ard_python_plugin R obs plg mask_ nt nb nc nodata phl w with
    | .ok (.SUCCESS, _) w1 => some w1
    | _ => none

/-- The world consecutive invocations leave behind when each of them returns
`SUCCESS`. -/
def consecutive : List Invocation → World → Option World
  | [], w => some w
  | c :: cs, w =>
    match c.success w with
    | some w1 => consecutive cs w1
    | none => none

/-- The eight references a driver holds when its copy-out loop ends, in the
order in which it gives them back. -/
def heldVars : List Var :=
  [.py_return, .py_data, .py_ce, .py_year, .py_month, .py_day, .py_nodata, .py_nproc]

/-- The calls of a run of `init_pyp` that finds and calls the initializer. -/
def init_events (path : String) (fp : Option FILE) (f : PyFun) : List Event :=
  [.PyImport_AddModule "__main__", .PyModule_GetDict, .fopen path fp,
   .PyRun_SimpleFile fp path, .PyDict_GetItemString "forcepy_init", .call_init f, .Py_SIZE,
   .Py_DECREF .py_register, .fclose fp]

/-- How a run stopped, if it did. -/
def Res.stopped {α : Type} : Res α → Option Stop
  | .ok _ _ => none
  | .stop s _ => some s

/-! ## `test_pyp` in closed form -/

/-- The locals of `test_pyp` after `k` rounds of its outer loop, for a data
array of shape `(nt, nb, nc)`. -/
def test_locals (R : Runtime) (nt nb nc k : Nat) : Locals :=
  { py_data := { dims := [nt, nb, nc], ty := .NPY_INT16,
                 data := filled (fun i => (R.rand i % 10000 : Nat)) R.junk (k * nb * nc) },
    data_ := k * nb * nc,
    py_ce := { dims := [nt], ty := .NPY_INT,
               data := filled (fun t => R.date2ce 2020 (t + 1) 15) R.junk k },
    py_year := { dims := [nt], ty := .NPY_INT, data := filled (fun _ => 2020) R.junk k },
    py_month := { dims := [nt], ty := .NPY_INT, data := filled (fun t => t + 1) R.junk k },
    py_day := { dims := [nt], ty := .NPY_INT, data := filled (fun _ => 15) R.junk k } }

/-- The arguments `test_pyp` hands to the apply entry point. -/
def test_args (R : Runtime) : Args :=
  (test_locals R 5 1 10 5).args (-9999) 2

/-- Loop-free description of a run of `test_pyp` (`test_pyp_eq` proves that
the code runs exactly like this). -/
def test_run (R : Runtime) (pyp : par_pyp_t) (w : World) : Res par_pyp_t :=
  if !pyp.opyp then .ok { pyp with nb := 1 } w
  else
    let fp := R.fopen pyp.f_code
    match R.PyRun_SimpleFile fp pyp.f_code w.globals with
    | none => .stop .undefined
        { w with trace := w.trace ++ [.PyImport_AddModule "__main__", .PyModule_GetDict,
            .fopen pyp.f_code fp, .PyRun_SimpleFile fp pyp.f_code] }
    | some g =>
      match g "forcepy_" with
      | none => .stop (.exit .FAILURE)
          { globals := g, live := w.live, trace := w.trace ++ setup_events pyp.f_code fp,
            stdout := w.stdout ++ [notFound "forcepy_"] }
      | some f =>
        let t1 := w.trace ++ setup_events pyp.f_code fp ++ alloc_events [5, 1, 10] 5 (-9999) 2
          ++ [.call_apply f (test_args R)]
        match R.call_apply f (test_args R) with
        | none => .stop (.exit .FAILURE)
            { globals := g, live := w.live + 7, trace := t1,
              stdout := w.stdout ++ ["Oops. Testing forcepy_tsi failed with dummy data. "
                ++ "NULL returned from python. "
                ++ "Clean up the python plugin code!\n"] }
        | some r =>
          if r.dims.length ≠ 2 then .stop (.exit .FAILURE)
            { globals := g, live := w.live + 8, trace := t1,
              stdout := w.stdout ++ ["Oops. Testing forcepy_tsi failed with dummy data. "
                ++ "Returned dimensions are incorrect: " ++ toString r.dims.length ++ ". "
                ++ "Clean up the python plugin code!\n"] }
          else if (r.dims.getD 0 0 : Int) ≠ pyp.nb then .stop (.exit .FAILURE)
            { globals := g, live := w.live + 8, trace := t1,
              stdout := w.stdout ++ ["Oops. Testing forcepy_tsi failed with dummy data. "
                ++ "Returned array size is incorrect. "
                ++ "Expected " ++ toString pyp.nb ++ " elements in 1st dimension, received "
                ++ toString (toInt32 (r.dims.getD 0 0)) ++ ". "
                ++ "Clean up the python plugin code!\n"] }
          else if r.dims.getD 1 0 ≠ 10 then .stop (.exit .FAILURE)
            { globals := g, live := w.live + 8, trace := t1,
              stdout := w.stdout ++ ["Oops. Testing forcepy_tsi failed with dummy data. "
                ++ "Returned array size is incorrect. "
                ++ "Expected " ++ toString 10
                ++ " elements in 2nd dimension (not all pixels returned), received "
                ++ toString (toInt32 (r.dims.getD 1 0)) ++ ". "
                ++ "Clean up the python plugin code!\n"] }
          else
            let w2 : World :=
              { globals := g, live := w.live, trace := t1 ++ release_events fp,
                stdout := w.stdout }
            match fp with
            | some _ => .ok pyp w2
            | none => .stop .undefined w2

/-- The host dates `test_pyp` makes up: the 15th of month `t + 1` of 2020,
with the linear day count `date2ce` gives for it. -/
def test_date (R : Runtime) (t : Nat) : date_t :=
  { ce := R.date2ce 2020 (t + 1) 15, year := 2020, month := t + 1, day := 15 }

/-! ## Sample inputs -/

/-- A world in which nothing has happened yet. -/
def exWorld : World :=
  { globals := fun _ => none, live := 0, trace := [], stdout := [] }

/-- Host dates 2020-01-15, 2020-02-15, ... with a linear day count. -/
def exDate (t : Nat) : date_t :=
  { ce := 737800 + 30 * t, year := 2020, month := t + 1, day := 15 }

/-- A `tsa_t` whose call site is not configured. -/
def exTsOff : tsa_t :=
  { tsi_ := fun t p => 10 * t + p, d_tsi := exDate, pyp_ := none }

/-- A `tsa_t` with output rows. -/
def exTs : tsa_t :=
  { tsi_ := fun t p => 10 * t + p, d_tsi := exDate, pyp_ := some (fun _ _ => -1) }

/-- Raw observations: band `b`, cell `p` of sample `t` holds `100 t + 10 b + p`;
the brick of sample `t` has handle `t`. -/
def exArd (t : Nat) : ard_t :=
  { dat := fun b p => 100 * t + 10 * b + p, DAT := t }

/-- A `plg_t` whose call site is not configured. -/
def exPlgOff : plg_t :=
  { pyp_ := none }

/-- A `plg_t` with output rows. -/
def exPlg : plg_t :=
  { pyp_ := some (fun _ _ => -1) }

/-- Parameters with both plug-ins enabled and `nb` output channels. -/
def exPhl (nb : Int) : par_hl_t :=
  { tsa := { pyp := { opyp := true, f_code := "tsa.py", nb := nb } },
    plg := { pyp := { opyp := true, f_code := "plg.py", nb := nb } },
    cthread := 4 }

/-- An interpreter whose sources open but define nothing. -/
def exEmpty : Runtime :=
  { fopen := fun _ => some 3,
    PyRun_SimpleFile := fun _ _ g => some g,
    call_init := fun _ => none,
    call_apply := fun _ _ => none,
    junk := fun _ => 0,
    rand := fun _ => 0,
    date2ce := fun _ _ _ => 0,
    get_brick_date := fun brick _ => exDate brick }

/-- A global dictionary that resolves `forcepy_` (callable 1) and
`forcepy_init` (callable 2) and nothing else. -/
def exGlobals : Globals :=
  fun k => if k = "forcepy_" then some 1 else if k = "forcepy_init" then some 2 else none

/-- An interpreter whose sources open and leave `exGlobals` behind; the
initializer returns a list of length 3 and the apply entry point a `3 x 10`
array of 16-bit integers holding `1000 + i` at flat index `i`. -/
def exThree : Runtime :=
  { fopen := fun _ => some 3,
    PyRun_SimpleFile := fun _ _ _ => some exGlobals,
    call_init := fun _ => some { len := 3, ob_size := 3 },
    call_apply := fun _ _ => some { dims := [3, 10], ty := .NPY_INT16, data := fun i => 1000 + i },
    junk := fun _ => 0,
    rand := fun _ => 0,
    date2ce := fun _ _ _ => 0,
    get_brick_date := fun brick _ => exDate brick }

/-- An interpreter like `exThree` whose apply entry point is the identity on a
`5 x 10` block: it hands back the data buffer it was given, read as 5 rows of
10 values. -/
def exIdentity : Runtime :=
  { exThree with
    call_apply := fun _ a => some { dims := [5, 10], ty := .NPY_INT16, data := a.data.data } }

/-- Three invocations, `tsa`, `ard`, `tsa`, that all succeed. -/
def exCalls : List Invocation :=
  [.tsa exThree exTs (fun _ => 1) 10 5 (-9999) (exPhl 3),
   .ard exThree exArd exPlg (fun _ => 1) 5 6 10 (-9999) (exPhl 3),
   .tsa exIdentity exTs (fun _ => 1) 10 5 (-9999) (exPhl 5)]

/-- An enabled descriptor whose channel count has not been negotiated yet. -/
def exPyp : par_pyp_t :=
  { opyp := true, f_code := "tsa.py", nb := 0 }

/-- An interpreter like `exThree` whose initializer returns a list of length
`2^31`. -/
def exLong : Runtime :=
  { exThree with call_init := fun _ => some { len := 2147483648, ob_size := 2147483648 } }

/-- An interpreter like `exThree` whose initializer returns a sequence of
length 3 that is not a list or a tuple, and whose `ob_size` slot reads 0. -/
def exOther : Runtime :=
  { exThree with call_init := fun _ => some { len := 3, ob_size := 0 } }

/-- An interpreter like `exThree` whose apply entry point returns one row too
many: a `4 x 10` array. -/
def exFour : Runtime :=
  { exThree with
    call_apply := fun _ _ => some { dims := [4, 10], ty := .NPY_INT16, data := fun i => 1000 + i } }

/-- An interpreter like `exThree` whose apply entry point returns one row too
few: a `2 x 10` array. -/
def exTwo : Runtime :=
  { exThree with
    call_apply := fun _ _ => some { dims := [2, 10], ty := .NPY_INT16, data := fun i => 1000 + i } }

/-! ## Running a piece of code -/

@[simp] theorem pure_run {α : Type} (a : α) (w : World) :
    (pure a : M α) w = .ok a w := rfl

@[simp] theorem bind_run {α β : Type} (m : M α) (f : α → M β) (w : World) :
    (m >>= f) w = match m w with
      | .ok a w1 => f a w1
      | .stop s w1 => .stop s w1 := rfl

@[simp] theorem emit_run (e : Event) (w : World) :
    emit e w = .ok () { w with trace := w.trace ++ [e] } := rfl

@[simp] theorem printf_run (s : String) (w : World) :
    printf s w = .ok () { w with stdout := w.stdout ++ [s] } := rfl

@[simp] theorem exit_run {α : Type} (c : RetCode) (w : World) :
    (exit c : M α) w = .stop (.exit c) w := rfl

@[simp] theorem undefined_run {α : Type} (w : World) :
    (undefined : M α) w = .stop .undefined w := rfl

@[simp] theorem newRef_run (w : World) :
    newRef w = .ok () { w with live := w.live + 1 } := rfl

@[simp] theorem forLoop_zero {σ : Type} (body : Nat → σ → M σ) (s : σ) (w : World) :
    forLoop 0 body s w = .ok s w := rfl

theorem forLoop_succ {σ : Type} (k : Nat) (body : Nat → σ → M σ) (s : σ) (w : World) :
    forLoop (k + 1) body s w = match forLoop k body s w with
      | .ok s1 w1 => body k s1 w1
      | .stop st w1 => .stop st w1 := rfl

/-! ## The loops in closed form -/



theorem filled_chunk (F old src : Nat → Int) (c n : Nat)
    (hsrc : ∀ p, p < n → src p = F (c * n + p)) :
    (fun i => if c * n ≤ i ∧ i < c * n + n then src (i - c * n) else filled F old (c * n) i)
      = filled F old ((c + 1) * n) := by
  funext i
  have e : (c + 1) * n = c * n + n := by ring
  simp only [filled, e]
  by_cases h1 : c * n ≤ i
  · by_cases h2 : i < c * n + n
    · have : src (i - c * n) = F i := by
        rw [hsrc _ (by omega)]; congr 1; omega
      simp [h1, h2, this]
    · simp [h1, h2]
  · have h3 : i < c * n := by omega
    have h4 : i < c * n + n := by omega
    simp [h1, h3, h4]

theorem filled_store (F old : Nat → Int) (k : Nat) (v : Int) (hv : v = F k) :
    (fun j => if j = k then v else filled F old k j) = filled F old (k + 1) := by
  funext j
  simp only [filled]
  by_cases h1 : j = k
  · subst h1; simp [hv]
  · by_cases h2 : j < k
    · have : j < k + 1 := by omega
      simp [h1, h2, this]
    · have : ¬ j < k + 1 := by omega
      simp [h1, h2, this]

theorem filled_zero (F old : Nat → Int) : filled F old 0 = old := by
  funext i; simp [filled]

theorem chunk_div (c n p : Nat) (hp : p < n) : (c * n + p) / n = c := by
  rw [Nat.div_eq_of_lt_le] <;> nlinarith

theorem chunk_mod (c n p : Nat) (hp : p < n) : (c * n + p) % n = p := by
  rw [Nat.mul_comm, Nat.mul_add_mod]; exact Nat.mod_eq_of_lt hp

theorem tsa_copy_in_loop (R : Runtime) (ts : tsa_t) (nc nt k : Nat) (hk : k ≤ nt) (w : World) :
    forLoop k (tsa_copy_in ts nc) (tsa_locals R ts nc nt 0) w
      = .ok (tsa_locals R ts nc nt k)
          { w with trace := w.trace ++ (List.range k).map (fun t => Event.memcpy_in (t * nc) nc) } := by
  induction k with
  | zero => simp
  | succ k ih =>
    rw [forLoop_succ, ih (by omega)]
    have h1 : k * nc + nc ≤ nt * nc := by
      have : (k + 1) * nc ≤ nt * nc := Nat.mul_le_mul_right nc hk
      linarith
    have h2 : k < nt := by omega
    simp only [tsa_copy_in, memcpy_in, store, tsa_locals, PyArrayObject.size, bind_run, emit_run,
      pure_run, List.prod_cons, List.prod_nil, mul_one, one_mul, h1, h2, if_true]
    simp only [List.range_succ, List.map_append, List.map_cons, List.map_nil, List.append_assoc]
    rw [filled_chunk, filled_store, filled_store, filled_store, filled_store, Nat.succ_mul]
    · rfl
    · rfl
    · rfl
    · rfl
    · intro p hp
      simp only [chunk_div k nc p hp, chunk_mod k nc p hp]

theorem copy_out_loop (r : PyArrayObject) (nc : Nat) (out : Nat → Nat → Int) (k : Nat)
    (hk : k * nc ≤ r.nshort) (w : World) :
    forLoop k (copy_out r nc) { pyp_ := out, return_ := 0 } w
      = .ok (out_locals r nc out k)
          { w with trace := w.trace ++ (List.range k).map (fun b => Event.memcpy_out b nc) } := by
  induction k with
  | zero => simp [out_locals]
  | succ k ih =>
    have e : (k + 1) * nc = k * nc + nc := Nat.succ_mul k nc
    rw [forLoop_succ, ih (by omega)]
    have h1 : k * nc + nc ≤ r.nshort := by omega
    simp only [copy_out, memcpy_out, out_locals, bind_run, emit_run, pure_run, h1, if_true,
      List.range_succ, List.map_append, List.map_cons, List.map_nil, List.append_assoc, e]
    congr 2
    funext b
    by_cases hb : b = k
    · subst hb; simp
    · by_cases hb2 : b < k
      · have : b < k + 1 := by omega
        simp [hb, hb2, this]
      · have : ¬ b < k + 1 := by omega
        simp [hb, hb2, this]

theorem ard_flat_at (ard : Nat → ard_t) (nb nc t b p : Nat) (hb : b < nb) (hp : p < nc) :
    ard_flat ard nb nc ((t * nb + b) * nc + p) = (ard t).dat b p := by
  simp only [ard_flat, chunk_div _ nc p hp, chunk_mod _ nc p hp, chunk_div t nb b hb,
    chunk_mod t nb b hb]

theorem ard_copy_band_loop (R : Runtime) (ard : Nat → ard_t) (nt nb nc t j : Nat)
    (ht : t < nt) (hj : j ≤ nb) (w : World) :
    forLoop j (ard_copy_band ard nc t)
        { py_data := { dims := [nt, nb, nc], ty := .NPY_INT16,
                       data := filled (ard_flat ard nb nc) R.junk (t * nb * nc) },
          data_ := t * nb * nc } w
      = .ok { py_data := { dims := [nt, nb, nc], ty := .NPY_INT16,
                           data := filled (ard_flat ard nb nc) R.junk ((t * nb + j) * nc) },
              data_ := (t * nb + j) * nc }
          { w with trace := w.trace ++
              (List.range j).map (fun b => Event.memcpy_in ((t * nb + b) * nc) nc) } := by
  induction j with
  | zero => simp
  | succ j ih =>
    rw [forLoop_succ, ih (by omega)]
    have e : (t * nb + (j + 1)) * nc = (t * nb + j) * nc + nc := by ring
    have h1 : (t * nb + j) * nc + nc ≤ nt * (nb * nc) := by
      have h3 : t * nb + (j + 1) ≤ nt * nb := by
        have : (t + 1) * nb ≤ nt * nb := Nat.mul_le_mul_right nb ht
        nlinarith
      have := Nat.mul_le_mul_right nc h3
      rw [e] at this
      linarith [Nat.mul_assoc nt nb nc]
    simp only [ard_copy_band, memcpy_in, PyArrayObject.size, bind_run, emit_run, pure_run,
      List.prod_cons, List.prod_nil, mul_one, h1, if_true, List.range_succ, List.map_append,
      List.map_cons, List.map_nil, List.append_assoc]
    rw [filled_chunk, e, Nat.succ_mul]
    · intro p hp
      exact (ard_flat_at ard nb nc t j p (by omega) hp).symm

theorem ard_copy_in_loop (R : Runtime) (ard : Nat → ard_t) (nt nb nc k : Nat) (hk : k ≤ nt)
    (w : World) :
    forLoop k (ard_copy_in R ard nb nc) (ard_locals R ard nt nb nc 0) w
      = .ok (ard_locals R ard nt nb nc k)
          { w with trace := w.trace ++ ard_copy_events nb nc k } := by
  induction k with
  | zero => simp [ard_copy_events]
  | succ k ih =>
    rw [forLoop_succ, ih (by omega)]
    have h2 : k < nt := by omega
    have e : (k + 1) * nb = k * nb + nb := Nat.succ_mul k nb
    simp only [ard_copy_in, ard_locals, bind_run]
    rw [ard_copy_band_loop R ard nt nb nc k nb h2 (le_refl nb)]
    simp only [store, PyArrayObject.size, bind_run, pure_run, List.prod_cons, List.prod_nil,
      mul_one, h2, if_true, ard_copy_events, List.append_assoc]
    rw [filled_store, filled_store, filled_store, filled_store, e]
    · rfl
    · rfl
    · rfl
    · rfl

theorem copy_out_loop_stop (r : PyArrayObject) (nc : Nat) (out : Nat → Nat → Int) (k : Nat)
    (hk : ¬ k * nc ≤ r.nshort) (w : World) :
    forLoop k (copy_out r nc) { pyp_ := out, return_ := 0 } w
      = .stop .undefined
          { w with trace := w.trace ++
              (List.range (r.nshort / nc + 1)).map (fun b => Event.memcpy_out b nc) } := by
  induction k with
  | zero => simp at hk
  | succ k ih =>
    have e : (k + 1) * nc = k * nc + nc := Nat.succ_mul k nc
    rw [forLoop_succ]
    by_cases h : k * nc ≤ r.nshort
    · have h1 : ¬ k * nc + nc ≤ r.nshort := by omega
      have h2 : r.nshort / nc = k := by
        apply Nat.div_eq_of_lt_le h
        omega
      rw [copy_out_loop r nc out k h]
      simp only [copy_out, memcpy_out, out_locals, bind_run, emit_run, undefined_run, h1,
        if_false, h2, List.range_succ, List.map_append, List.map_cons, List.map_nil,
        List.append_assoc]
    · rw [ih h]

theorem tsa_locals_zero (R : Runtime) (ts : tsa_t) (nc nt : Nat) :
    tsa_locals R ts nc nt 0
      = { py_data := { dims := [nt, 1, nc], ty := .NPY_INT16, data := R.junk }, data_ := 0,
          py_ce := { dims := [nt], ty := .NPY_INT, data := R.junk },
          py_year := { dims := [nt], ty := .NPY_INT, data := R.junk },
          py_month := { dims := [nt], ty := .NPY_INT, data := R.junk },
          py_day := { dims := [nt], ty := .NPY_INT, data := R.junk } } := by
  simp [tsa_locals, filled_zero]

theorem tsa_python_plugin_eq (R : Runtime) (ts : tsa_t) (mask_ : Nat → Int) (nc nt : Nat)
    (nodata : Int) (phl : par_hl_t) (w : World) :
    tsa_python_plugin R ts mask_ nc nt nodata phl w
      = plugin_run R ts.pyp_ ts (fun o => { ts with pyp_ := some o }) phl.tsa.pyp.f_code
          phl.tsa.pyp.nb [nt, 1, nc] nt nc nodata phl.cthread
          (tsa_copy_events nc nt)
          (tsa_args R ts nc nt nodata phl) w := by
  unfold tsa_python_plugin plugin_run tsa_args tsa_copy_events
  cases hp : ts.pyp_ with
  | none => simp
  | some out =>
    simp only [PyImport_AddModule, PyModule_GetDict, fopen, PyRun_SimpleFile,
      PyDict_GetItemString, bind_run, emit_run, pure_run]
    cases hr : R.PyRun_SimpleFile (R.fopen phl.tsa.pyp.f_code) phl.tsa.pyp.f_code w.globals with
    | none => simp
    | some g =>
      simp only []
      cases hg : g "forcepy_" with
      | none => simp [setup_events]
      | some f =>
        simp only [PyLong_FromLong, PyArray_SimpleNew, bind_run, emit_run, pure_run, newRef_run,
          List.take, ← tsa_locals_zero R ts nc nt]
        rw [tsa_copy_in_loop R ts nc nt nt (le_refl nt)]
        simp only [call_apply, bind_run, emit_run]
        cases hc : R.call_apply f ((tsa_locals R ts nc nt nt).args nodata phl.cthread) with
        | none =>
          simp [setup_events, alloc_events]
          ring
        | some r =>
          simp only [bind_run, newRef_run, pure_run]
          by_cases hs : phl.tsa.pyp.nb.toNat * nc ≤ r.nshort
          · rw [copy_out_loop r nc out _ hs]
            cases hf : R.fopen phl.tsa.pyp.f_code with
            | none =>
              simp [Py_DECREF, fclose, hs, setup_events, alloc_events, release_events]
            | some fp =>
              simp [Py_DECREF, fclose, hs, setup_events, alloc_events, release_events]
          · rw [copy_out_loop_stop r nc out _ hs]
            simp [hs, setup_events, alloc_events]
            ring

theorem ard_locals_zero (R : Runtime) (ard : Nat → ard_t) (nt nb nc : Nat) :
    ard_locals R ard nt nb nc 0
      = { py_data := { dims := [nt, nb, nc], ty := .NPY_INT16, data := R.junk }, data_ := 0,
          py_ce := { dims := [nt], ty := .NPY_INT, data := R.junk },
          py_year := { dims := [nt], ty := .NPY_INT, data := R.junk },
          py_month := { dims := [nt], ty := .NPY_INT, data := R.junk },
          py_day := { dims := [nt], ty := .NPY_INT, data := R.junk } } := by
  simp [ard_locals, filled_zero]

theorem ard_python_plugin_eq (R : Runtime) (ard : Nat → ard_t) (plg : plg_t)
    (mask_ : Nat → Int) (nt nb nc : Nat) (nodata : Int) (phl : par_hl_t) (w : World) :
    ard_python_plugin R ard plg mask_ nt nb nc nodata phl w
      = plugin_run R plg.pyp_ plg (fun o => { plg with pyp_ := some o }) phl.plg.pyp.f_code
          phl.plg.pyp.nb [nt, nb, nc] nt nc nodata phl.cthread (ard_copy_events nb nc nt)
          (ard_args R ard nt nb nc nodata phl) w := by
  unfold ard_python_plugin plugin_run ard_args
  cases hp : plg.pyp_ with
  | none => simp
  | some out =>
    simp only [PyImport_AddModule, PyModule_GetDict, fopen, PyRun_SimpleFile,
      PyDict_GetItemString, bind_run, emit_run, pure_run]
    cases hr : R.PyRun_SimpleFile (R.fopen phl.plg.pyp.f_code) phl.plg.pyp.f_code w.globals with
    | none => simp
    | some g =>
      simp only []
      cases hg : g "forcepy_" with
      | none => simp [setup_events]
      | some f =>
        simp only [PyLong_FromLong, PyArray_SimpleNew, bind_run, emit_run, pure_run, newRef_run,
          List.take, ← ard_locals_zero R ard nt nb nc]
        rw [ard_copy_in_loop R ard nt nb nc nt (le_refl nt)]
        simp only [call_apply, bind_run, emit_run]
        cases hc : R.call_apply f ((ard_locals R ard nt nb nc nt).args nodata phl.cthread) with
        | none =>
          simp [setup_events, alloc_events]
          ring
        | some r =>
          simp only [bind_run, newRef_run, pure_run]
          by_cases hs : phl.plg.pyp.nb.toNat * nc ≤ r.nshort
          · rw [copy_out_loop r nc out _ hs]
            cases hf : R.fopen phl.plg.pyp.f_code with
            | none =>
              simp [Py_DECREF, fclose, hs, setup_events, alloc_events, release_events]
            | some fp =>
              simp [Py_DECREF, fclose, hs, setup_events, alloc_events, release_events]
          · rw [copy_out_loop_stop r nc out _ hs]
            simp [hs, setup_events, alloc_events]
            ring

theorem filterMap_memcpy {α : Type} (f : Event → Option α)
    (hf : ∀ e, e.isMemcpy = true → f e = none) (l : List Event)
    (hl : ∀ e ∈ l, e.isMemcpy = true) : l.filterMap f = [] := by
  rw [List.filterMap_eq_nil_iff]
  intro e he
  exact hf e (hl e he)

theorem tsa_copy_events_memcpy (nc nt : Nat) :
    ∀ e ∈ tsa_copy_events nc nt, e.isMemcpy = true := by
  intro e he
  simp only [tsa_copy_events, List.mem_map] at he
  obtain ⟨t, _, rfl⟩ := he
  rfl

theorem ard_copy_events_memcpy (nb nc k : Nat) :
    ∀ e ∈ ard_copy_events nb nc k, e.isMemcpy = true := by
  induction k with
  | zero => simp [ard_copy_events]
  | succ k ih =>
    intro e he
    simp only [ard_copy_events, List.mem_append, List.mem_map] at he
    rcases he with he | ⟨b, _, rfl⟩
    · exact ih e he
    · rfl

theorem out_events_memcpy (nc n : Nat) :
    ∀ e ∈ (List.range n).map (fun b => Event.memcpy_out b nc), e.isMemcpy = true := by
  intro e he
  simp only [List.mem_map] at he
  obtain ⟨t, _, rfl⟩ := he
  rfl

theorem outRows_out_events (nc n : Nat) :
    outRows ((List.range n).map (fun b => Event.memcpy_out b nc)) = List.range n := by
  simp only [outRows, List.filterMap_map]
  have : (Event.asOutRow ∘ fun b => Event.memcpy_out b nc) = some := by
    funext b; rfl
  rw [this, List.filterMap_some]

theorem applyCalls_memcpy (l : List Event) (hl : ∀ e ∈ l, e.isMemcpy = true) :
    applyCalls l = [] :=
  filterMap_memcpy _ (by intro e he; cases e <;> simp_all [Event.isMemcpy, Event.asApply]) l hl

theorem released_memcpy (l : List Event) (hl : ∀ e ∈ l, e.isMemcpy = true) :
    released l = [] :=
  filterMap_memcpy _ (by intro e he; cases e <;> simp_all [Event.isMemcpy, Event.asRelease]) l hl

theorem created_memcpy (l : List Event) (hl : ∀ e ∈ l, e.isMemcpy = true) :
    created l = [] := by
  rw [created, List.filter_eq_nil_iff]
  intro e he
  have := hl e he
  cases e <;> simp_all [Event.isMemcpy, Event.creates]

theorem initCalls_memcpy (l : List Event) (hl : ∀ e ∈ l, e.isMemcpy = true) :
    initCalls l = [] := by
  rw [initCalls, List.filter_eq_nil_iff]
  intro e he
  have := hl e he
  cases e <;> simp_all [Event.isMemcpy, Event.touchesInit]

theorem outRows_copy (l : List Event) (hl : ∀ e ∈ l, ∃ off n, e = .memcpy_in off n) :
    outRows l = [] := by
  rw [outRows, List.filterMap_eq_nil_iff]
  intro e he
  obtain ⟨off, n, rfl⟩ := hl e he
  rfl

/-- The apply calls of a run of either driver that reaches the entry point:
exactly one, with the arguments built by the copy-in loop, whatever happens
afterwards. -/
theorem plugin_run_applyCalls {β : Type} (R : Runtime) (pyp_ : Option (Nat → Nat → Int))
    (keep : β) (put : (Nat → Nat → Int) → β) (path : String) (nb : Int) (dims : List Nat)
    (nt nc : Nat) (nodata cthread : Int) (copied : List Event) (args : Args) (w : World)
    (out : Nat → Nat → Int) (g : Globals) (f : PyFun)
    (hp : pyp_ = some out) (hrun : R.PyRun_SimpleFile (R.fopen path) path w.globals = some g)
    (hg : g "forcepy_" = some f) (hc : ∀ e ∈ copied, e.isMemcpy = true) :
    applyCalls (plugin_run R pyp_ keep put path nb dims nt nc nodata cthread copied args w).world.trace
      = applyCalls w.trace ++ [(f, args)] := by
  have h1 := applyCalls_memcpy copied hc
  have h2 := fun n => applyCalls_memcpy _ (out_events_memcpy nc n)
  unfold applyCalls at h1 h2 ⊢
  simp only [plugin_run, hp, hrun, hg]
  cases R.call_apply f args with
  | none =>
    simp [Res.world, setup_events, alloc_events, h1, Event.asApply]
  | some r =>
    simp only []
    split
    · cases R.fopen path <;>
        simp [Res.world, setup_events, alloc_events, release_events, h1, h2, Event.asApply]
    · simp [Res.world, setup_events, alloc_events, h1, h2, Event.asApply]

theorem chunk_lt (nt nc t p : Nat) (ht : t < nt) (hp : p < nc) : t * nc + p < nt * nc := by
  have : (t + 1) * nc ≤ nt * nc := Nat.mul_le_mul_right nc ht
  nlinarith

theorem tsa_args_data (R : Runtime) (ts : tsa_t) (nc nt : Nat) (nodata : Int) (phl : par_hl_t)
    (t p : Nat) (ht : t < nt) (hp : p < nc) :
    (tsa_args R ts nc nt nodata phl).data.data (t * nc + p) = ts.tsi_ t p := by
  simp only [tsa_args, tsa_locals, Locals.args, filled, chunk_lt nt nc t p ht hp, if_true,
    chunk_div t nc p hp, chunk_mod t nc p hp]

theorem ard_args_data (R : Runtime) (ard : Nat → ard_t) (nt nb nc : Nat) (nodata : Int)
    (phl : par_hl_t) (t b p : Nat) (ht : t < nt) (hb : b < nb) (hp : p < nc) :
    (ard_args R ard nt nb nc nodata phl).data.data ((t * nb + b) * nc + p) = (ard t).dat b p := by
  have h : (t * nb + b) * nc + p < nt * nb * nc :=
    chunk_lt (nt * nb) nc (t * nb + b) p (chunk_lt nt nb t b ht hb) hp
  simp only [ard_args, ard_locals, Locals.args, filled, h, if_true]
  exact ard_flat_at ard nb nc t b p hb hp

theorem tsa_args_calendar (R : Runtime) (ts : tsa_t) (nc nt : Nat) (nodata : Int)
    (phl : par_hl_t) (t : Nat) (ht : t < nt) :
    (tsa_args R ts nc nt nodata phl).ce.data t = (ts.d_tsi t).ce
    ∧ (tsa_args R ts nc nt nodata phl).year.data t = (ts.d_tsi t).year
    ∧ (tsa_args R ts nc nt nodata phl).month.data t = (ts.d_tsi t).month
    ∧ (tsa_args R ts nc nt nodata phl).day.data t = (ts.d_tsi t).day := by
  simp [tsa_args, tsa_locals, Locals.args, filled, ht]

theorem ard_args_calendar (R : Runtime) (ard : Nat → ard_t) (nt nb nc : Nat) (nodata : Int)
    (phl : par_hl_t) (t : Nat) (ht : t < nt) :
    (ard_args R ard nt nb nc nodata phl).ce.data t = (R.get_brick_date (ard t).DAT 0).ce
    ∧ (ard_args R ard nt nb nc nodata phl).year.data t = (R.get_brick_date (ard t).DAT 0).year
    ∧ (ard_args R ard nt nb nc nodata phl).month.data t = (R.get_brick_date (ard t).DAT 0).month
    ∧ (ard_args R ard nt nb nc nodata phl).day.data t = (R.get_brick_date (ard t).DAT 0).day := by
  simp [ard_args, ard_locals, Locals.args, filled, ht]

/-- A run of either driver in which everything answers: the result is
`SUCCESS` with the first `nb` rows copied out of the result array. -/
theorem plugin_run_success {β : Type} (R : Runtime) (pyp_ : Option (Nat → Nat → Int))
    (keep : β) (put : (Nat → Nat → Int) → β) (path : String) (nb : Int) (dims : List Nat)
    (nt nc : Nat) (nodata cthread : Int) (copied : List Event) (args : Args) (w : World)
    (out : Nat → Nat → Int) (fp : FILE) (g : Globals) (f : PyFun) (r : PyArrayObject)
    (hp : pyp_ = some out) (hl : Loaded R path w fp g f)
    (hcall : R.call_apply f args = some r) (hsize : nb.toNat * nc ≤ r.nshort) :
    plugin_run R pyp_ keep put path nb dims nt nc nodata cthread copied args w
      = .ok (.SUCCESS, put (out_locals r nc out nb.toNat).pyp_)
          { globals := g, live := w.live,
            trace := w.trace ++ setup_events path (some fp)
              ++ alloc_events dims nt nodata cthread ++ copied ++ [.call_apply f args]
              ++ (List.range nb.toNat).map (fun b => Event.memcpy_out b nc)
              ++ release_events (some fp),
            stdout := w.stdout } := by
  obtain ⟨h1, h2, h3⟩ := hl
  simp [plugin_run, hp, h1, h2, h3, hcall, hsize]

theorem shorts_int16 (a : PyArrayObject) (h : a.ty = .NPY_INT16) (j : Nat) :
    a.shorts j = a.data j := by
  simp [PyArrayObject.shorts, h]

theorem out_locals_row (r : PyArrayObject) (nc : Nat) (out : Nat → Nat → Int) (k b p : Nat)
    (hb : b < k) (hp : p < nc) :
    (out_locals r nc out k).pyp_ b p = r.shorts (b * nc + p) := by
  simp [out_locals, hb, hp]

/-- A successful run of either driver gives back what it created. -/
theorem plugin_run_balance {β : Type} (R : Runtime) (pyp_ : Option (Nat → Nat → Int))
    (keep : β) (put : (Nat → Nat → Int) → β) (path : String) (nb : Int) (dims : List Nat)
    (nt nc : Nat) (nodata cthread : Int) (copied : List Event) (args : Args) (w w1 : World)
    (x : β) (hc : ∀ e ∈ copied, e.isMemcpy = true)
    (h : plugin_run R pyp_ keep put path nb dims nt nc nodata cthread copied args w
      = .ok (.SUCCESS, x) w1) :
    w1.live = w.live ∧ ∃ l, w1.trace = w.trace ++ l ∧ released l = heldVars
      ∧ (created l).length = 8 := by
  have h1 := released_memcpy copied hc
  have h2 := fun n => released_memcpy _ (out_events_memcpy nc n)
  have h3 := created_memcpy copied hc
  have h4 := fun n => created_memcpy _ (out_events_memcpy nc n)
  unfold released at h1 h2
  unfold created at h3 h4
  cases hp : pyp_ with
  | none => simp [plugin_run, hp] at h
  | some out =>
    cases hr : R.PyRun_SimpleFile (R.fopen path) path w.globals with
    | none => simp [plugin_run, hp, hr] at h
    | some g =>
      cases hg : g "forcepy_" with
      | none => simp [plugin_run, hp, hr, hg] at h
      | some f =>
        cases hcall : R.call_apply f args with
        | none => simp [plugin_run, hp, hr, hg, hcall] at h
        | some r =>
          by_cases hs : nb.toNat * nc ≤ r.nshort
          · cases hf : R.fopen path with
            | none =>
              rw [hf] at hr
              simp [plugin_run, hp, hf, hr, hg, hcall, hs] at h
            | some fp =>
              rw [hf] at hr
              simp only [plugin_run, hp, hf, hr, hg, hcall, hs, if_true, Res.ok.injEq] at h
              obtain ⟨_, rfl⟩ := h
              refine ⟨rfl, _, by simp only [List.append_assoc]; rfl, ?_, ?_⟩
              · simp [released, setup_events, alloc_events, release_events, h1, h2,
                  Event.asRelease, heldVars]
              · simp [created, setup_events, alloc_events, release_events, h3, h4,
                  Event.creates]
          · simp [plugin_run, hp, hr, hg, hcall, hs] at h

/-- An invocation that returns `SUCCESS` gives back what it created. -/
theorem success_balance (c : Invocation) (w w1 : World) (h : c.success w = some w1) :
    w1.live = w.live ∧ ∃ l, w1.trace = w.trace ++ l ∧ released l = heldVars
      ∧ (created l).length = 8 := by
  cases c with
  | tsa R ts mask_ nc nt nodata phl =>
    simp only [Invocation.success] at h
    split at h
    · rename_i x w2 heq
      simp only [Option.some.injEq] at h
      subst h
      rw [tsa_python_plugin_eq] at heq
      exact plugin_run_balance R _ _ _ _ _ _ _ _ _ _ _ _ w w2 x (tsa_copy_events_memcpy nc nt) heq
    · simp at h
  | ard R ard plg mask_ nt nb nc nodata phl =>
    simp only [Invocation.success] at h
    split at h
    · rename_i x w2 heq
      simp only [Option.some.injEq] at h
      subst h
      rw [ard_python_plugin_eq] at heq
      exact plugin_run_balance R _ _ _ _ _ _ _ _ _ _ _ _ w w2 x (ard_copy_events_memcpy nb nc nt)
        heq
    · simp at h

/-- A configured call of `tsa_python_plugin` in which everything answers
returns `SUCCESS`. -/
theorem tsa_success (R : Runtime) (ts : tsa_t) (mask_ : Nat → Int) (nc nt : Nat)
    (nodata : Int) (phl : par_hl_t) (w : World) (out : Nat → Nat → Int) (fp : FILE)
    (g : Globals) (f : PyFun) (r : PyArrayObject)
    (hts : ts.pyp_ = some out) (hl : Loaded R phl.tsa.pyp.f_code w fp g f)
    (hcall : R.call_apply f (tsa_args R ts nc nt nodata phl) = some r)
    (hsize : phl.tsa.pyp.nb.toNat * nc ≤ r.nshort) :
    ∃ w1, (Invocation.tsa R ts mask_ nc nt nodata phl).success w = some w1 := by
  have h := (tsa_python_plugin_eq R ts mask_ nc nt nodata phl w).trans
    (plugin_run_success R _ _ _ _ _ _ _ _ _ _ _ _ w out fp g f r hts hl hcall hsize)
  simp only [Invocation.success, h]
  exact ⟨_, rfl⟩

/-- A configured call of `ard_python_plugin` in which everything answers
returns `SUCCESS`. -/
theorem ard_success (R : Runtime) (ard : Nat → ard_t) (plg : plg_t) (mask_ : Nat → Int)
    (nt nb nc : Nat) (nodata : Int) (phl : par_hl_t) (w : World) (out : Nat → Nat → Int)
    (fp : FILE) (g : Globals) (f : PyFun) (r : PyArrayObject)
    (hplg : plg.pyp_ = some out) (hl : Loaded R phl.plg.pyp.f_code w fp g f)
    (hcall : R.call_apply f (ard_args R ard nt nb nc nodata phl) = some r)
    (hsize : phl.plg.pyp.nb.toNat * nc ≤ r.nshort) :
    ∃ w1, (Invocation.ard R ard plg mask_ nt nb nc nodata phl).success w = some w1 := by
  have h := (ard_python_plugin_eq R ard plg mask_ nt nb nc nodata phl w).trans
    (plugin_run_success R _ _ _ _ _ _ _ _ _ _ _ _ w out fp g f r hplg hl hcall hsize)
  simp only [Invocation.success, h]
  exact ⟨_, rfl⟩

/-- Invocations that succeed from every world succeed one after another. -/
theorem consecutive_success (calls : List Invocation)
    (h : ∀ c ∈ calls, ∀ w, ∃ w1, c.success w = some w1) (w : World) :
    ∃ w1, consecutive calls w = some w1 := by
  induction calls generalizing w with
  | nil => exact ⟨w, rfl⟩
  | cons c cs ih =>
    obtain ⟨w1, h1⟩ := h c (List.mem_cons_self c cs) w
    obtain ⟨w2, h2⟩ := ih (fun c1 hc1 => h c1 (List.mem_cons_of_mem c hc1)) w1
    exact ⟨w2, by simp only [consecutive, h1, h2]⟩

/-- The sample invocations succeed one after another. -/
theorem exCalls_success : ∃ w1, consecutive exCalls exWorld = some w1 := by
  apply consecutive_success
  intro c hc w
  simp only [exCalls, List.mem_cons, List.mem_singleton, List.not_mem_nil, or_false] at hc
  rcases hc with rfl | rfl | rfl
  · exact tsa_success exThree exTs _ 10 5 _ (exPhl 3) w (fun _ _ => -1) 3 exGlobals 1
      { dims := [3, 10], ty := .NPY_INT16, data := fun i => 1000 + i }
      rfl ⟨rfl, rfl, by decide⟩ rfl (by decide)
  · exact ard_success exThree exArd exPlg _ 5 6 10 _ (exPhl 3) w (fun _ _ => -1) 3 exGlobals 1
      { dims := [3, 10], ty := .NPY_INT16, data := fun i => 1000 + i }
      rfl ⟨rfl, rfl, by decide⟩ rfl (by decide)
  · exact tsa_success exIdentity exTs _ 10 5 _ (exPhl 5) w (fun _ _ => -1) 3 exGlobals 1
      { dims := [5, 10], ty := .NPY_INT16,
        data := (tsa_args exIdentity exTs 10 5 (-9999) (exPhl 5)).data.data }
      rfl ⟨rfl, rfl, by decide⟩ rfl (by decide)

theorem toInt32_of_lt (n : Nat) (h : n < 2 ^ 31) : toInt32 n = n := by
  unfold toInt32
  omega

/-- A run of `init_pyp` in which everything answers. -/
theorem init_pyp_success (R : Runtime) (pyp : par_pyp_t) (w : World) (fp : FILE) (g : Globals)
    (f : PyFun) (o : PyObject)
    (hen : pyp.opyp = true) (hopen : R.fopen pyp.f_code = some fp)
    (hrun : R.PyRun_SimpleFile (some fp) pyp.f_code w.globals = some g)
    (hg : g "forcepy_init" = some f) (hcall : R.call_init f = some o) :
    init_pyp R pyp w
      = .ok { pyp with nb := toInt32 o.ob_size }
          { globals := g, live := w.live,
            trace := w.trace ++ init_events pyp.f_code (some fp) f, stdout := w.stdout } := by
  simp [init_pyp, hen, PyImport_AddModule, PyModule_GetDict, fopen, PyRun_SimpleFile,
    PyDict_GetItemString, call_init, Py_SIZE, Py_DECREF, fclose, hopen, hrun, hg, hcall,
    init_events]

/-- No run of either driver looks up or calls the initializer. -/
theorem plugin_run_initCalls {β : Type} (R : Runtime) (pyp_ : Option (Nat → Nat → Int))
    (keep : β) (put : (Nat → Nat → Int) → β) (path : String) (nb : Int) (dims : List Nat)
    (nt nc : Nat) (nodata cthread : Int) (copied : List Event) (args : Args) (w : World)
    (hc : ∀ e ∈ copied, e.isMemcpy = true) :
    initCalls (plugin_run R pyp_ keep put path nb dims nt nc nodata cthread copied args w).world.trace
      = initCalls w.trace := by
  have h1 := initCalls_memcpy copied hc
  have h2 := fun n => initCalls_memcpy _ (out_events_memcpy nc n)
  unfold initCalls at h1 h2 ⊢
  cases hp : pyp_ with
  | none => simp [plugin_run, Res.world]
  | some out =>
    cases hr : R.PyRun_SimpleFile (R.fopen path) path w.globals with
    | none => simp [plugin_run, hr, Res.world, Event.touchesInit]
    | some g =>
      cases hg : g "forcepy_" with
      | none => simp [plugin_run, hr, hg, Res.world, setup_events, Event.touchesInit]
      | some f =>
        cases hcall : R.call_apply f args with
        | none =>
          simp [plugin_run, hr, hg, hcall, Res.world, setup_events, alloc_events, h1,
            Event.touchesInit]
        | some r =>
          by_cases hs : nb.toNat * nc ≤ r.nshort
          · cases hf : R.fopen path <;>
            · rw [hf] at hr
              simp [plugin_run, hf, hr, hg, hcall, hs, Res.world, setup_events, alloc_events,
                release_events, h1, h2, Event.touchesInit]
          · simp [plugin_run, hr, hg, hcall, hs, Res.world, setup_events, alloc_events, h1, h2,
              Event.touchesInit]

/-- A successful run of either driver writes the host rows `0 .. nb-1`, in
this order, for the channel count `nb` of the descriptor. -/
theorem plugin_run_outRows {β : Type} (R : Runtime) (pyp_ : Option (Nat → Nat → Int))
    (keep : β) (put : (Nat → Nat → Int) → β) (path : String) (nb : Int) (dims : List Nat)
    (nt nc : Nat) (nodata cthread : Int) (copied : List Event) (args : Args) (w w1 : World)
    (x : β) (hc2 : outRows copied = [])
    (h : plugin_run R pyp_ keep put path nb dims nt nc nodata cthread copied args w
      = .ok (.SUCCESS, x) w1) :
    outRows w1.trace = outRows w.trace ++ List.range nb.toNat := by
  have h2 := outRows_out_events nc nb.toNat
  unfold outRows at h2 hc2 ⊢
  cases hp : pyp_ with
  | none => simp [plugin_run, hp] at h
  | some out =>
    cases hr : R.PyRun_SimpleFile (R.fopen path) path w.globals with
    | none => simp [plugin_run, hp, hr] at h
    | some g =>
      cases hg : g "forcepy_" with
      | none => simp [plugin_run, hp, hr, hg] at h
      | some f =>
        cases hcall : R.call_apply f args with
        | none => simp [plugin_run, hp, hr, hg, hcall] at h
        | some r =>
          by_cases hs : nb.toNat * nc ≤ r.nshort
          · cases hf : R.fopen path with
            | none =>
              rw [hf] at hr
              simp [plugin_run, hp, hf, hr, hg, hcall, hs] at h
            | some fp =>
              rw [hf] at hr
              simp only [plugin_run, hp, hf, hr, hg, hcall, hs, if_true, Res.ok.injEq] at h
              obtain ⟨_, rfl⟩ := h
              simp [setup_events, alloc_events, release_events, h2, hc2, Event.asOutRow]
          · simp [plugin_run, hp, hr, hg, hcall, hs] at h

theorem outRows_tsa_copy (nc nt : Nat) : outRows (tsa_copy_events nc nt) = [] := by
  apply outRows_copy
  intro e he
  simp only [tsa_copy_events, List.mem_map] at he
  obtain ⟨t, _, rfl⟩ := he
  exact ⟨_, _, rfl⟩

theorem outRows_ard_copy (nb nc k : Nat) : outRows (ard_copy_events nb nc k) = [] := by
  apply outRows_copy
  induction k with
  | zero => simp [ard_copy_events]
  | succ k ih =>
    intro e he
    simp only [ard_copy_events, List.mem_append, List.mem_map] at he
    rcases he with he | ⟨b, _, rfl⟩
    · exact ih e he
    · exact ⟨_, _, rfl⟩

theorem test_fill_cell_loop (R : Runtime) (dims : List Nat) (c j : Nat)
    (hj : c + j ≤ dims.prod) (w : World) :
    forLoop j (test_fill_cell R)
        { py_data := { dims := dims, ty := .NPY_INT16,
                       data := filled (fun i => (R.rand i % 10000 : Nat)) R.junk c },
          data_ := c } w
      = .ok { py_data := { dims := dims, ty := .NPY_INT16,
                           data := filled (fun i => (R.rand i % 10000 : Nat)) R.junk (c + j) },
              data_ := c + j } w := by
  induction j with
  | zero => simp
  | succ j ih =>
    rw [forLoop_succ, ih (by omega)]
    have h1 : c + j < dims.prod := by omega
    simp only [test_fill_cell, store, PyArrayObject.size, bind_run, pure_run, h1, if_true]
    rw [filled_store]
    · rfl
    · rfl

theorem test_fill_band_loop (R : Runtime) (dims : List Nat) (nc c j : Nat)
    (hj : c + j * nc ≤ dims.prod) (w : World) :
    forLoop j (test_fill_band R nc)
        { py_data := { dims := dims, ty := .NPY_INT16,
                       data := filled (fun i => (R.rand i % 10000 : Nat)) R.junk c },
          data_ := c } w
      = .ok { py_data := { dims := dims, ty := .NPY_INT16,
                           data := filled (fun i => (R.rand i % 10000 : Nat)) R.junk (c + j * nc) },
              data_ := c + j * nc } w := by
  induction j with
  | zero => simp
  | succ j ih =>
    have e : c + (j + 1) * nc = c + j * nc + nc := by ring
    rw [forLoop_succ, ih (by rw [e] at hj; omega)]
    simp only [test_fill_band]
    rw [test_fill_cell_loop R dims (c + j * nc) nc (by rw [e] at hj; exact hj), e]

theorem test_fill_loop (R : Runtime) (nt nb nc k : Nat) (hk : k ≤ nt) (w : World) :
    forLoop k (test_fill R nb nc) (test_locals R nt nb nc 0) w
      = .ok (test_locals R nt nb nc k) w := by
  induction k with
  | zero => simp
  | succ k ih =>
    rw [forLoop_succ, ih (by omega)]
    have h2 : k < nt := by omega
    have e : (k + 1) * nb * nc = k * nb * nc + nb * nc := by ring
    have h3 : k * nb * nc + nb * nc ≤ [nt, nb, nc].prod := by
      have : (k + 1) * (nb * nc) ≤ nt * (nb * nc) := Nat.mul_le_mul_right _ hk
      simp only [List.prod_cons, List.prod_nil, mul_one]
      nlinarith
    simp only [test_fill, test_locals, bind_run]
    rw [test_fill_band_loop R [nt, nb, nc] nc (k * nb * nc) nb h3]
    simp only [store, load, PyArrayObject.size, bind_run, pure_run, List.prod_cons,
      List.prod_nil, mul_one, h2, if_true]
    rw [filled_store, filled_store, filled_store, filled_store, e]
    · simp
    · rfl
    · rfl
    · rfl

theorem test_locals_zero (R : Runtime) (nt nb nc : Nat) :
    test_locals R nt nb nc 0
      = { py_data := { dims := [nt, nb, nc], ty := .NPY_INT16, data := R.junk }, data_ := 0,
          py_ce := { dims := [nt], ty := .NPY_INT, data := R.junk },
          py_year := { dims := [nt], ty := .NPY_INT, data := R.junk },
          py_month := { dims := [nt], ty := .NPY_INT, data := R.junk },
          py_day := { dims := [nt], ty := .NPY_INT, data := R.junk } } := by
  simp [test_locals, filled_zero]

theorem test_pyp_eq (R : Runtime) (pyp : par_pyp_t) (w : World) :
    test_pyp R pyp w = test_run R pyp w := by
  unfold test_pyp test_run test_args
  cases hen : pyp.opyp with
  | false => simp
  | true =>
    simp only [PyImport_AddModule, PyModule_GetDict, fopen, PyRun_SimpleFile,
      PyDict_GetItemString, bind_run, emit_run, pure_run, Bool.not_true, Bool.false_eq_true,
      if_false]
    cases hr : R.PyRun_SimpleFile (R.fopen pyp.f_code) pyp.f_code w.globals with
    | none => simp
    | some g =>
      simp only []
      cases hg : g "forcepy_" with
      | none => simp [setup_events]
      | some f =>
        simp only [PyLong_FromLong, PyArray_SimpleNew, bind_run, emit_run, pure_run, newRef_run,
          List.take, ← test_locals_zero R 5 1 10]
        rw [test_fill_loop R 5 1 10 5 (le_refl 5)]
        simp only [call_apply, bind_run, emit_run]
        cases hc : R.call_apply f ((test_locals R 5 1 10 5).args (-9999) 2) with
        | none =>
          simp [setup_events, alloc_events]
          ring
        | some r =>
          simp only [bind_run, newRef_run, pure_run]
          have e8 : w.live + 1 + 1 + 1 + 1 + 1 + 1 + 1 + 1 = w.live + 8 := by ring
          rw [e8]
          split_ifs with h1 h2 h3
          · simp only [bind_run, printf_run, exit_run, setup_events, alloc_events,
              List.append_assoc, List.cons_append, List.nil_append]
          · simp only [bind_run, printf_run, exit_run, setup_events, alloc_events,
              List.append_assoc, List.cons_append, List.nil_append]
          · simp only [bind_run, printf_run, exit_run, setup_events, alloc_events,
              List.append_assoc, List.cons_append, List.nil_append]
          · cases hf : R.fopen pyp.f_code <;>
            · simp [Py_DECREF, fclose, setup_events, alloc_events, release_events]
              ring

/-- The check of lines 220-241: whenever `test_pyp` reaches the apply entry
point and gets back an array whose shape is not `(nb, 10)`, it takes the
`exit(FAILURE)` path and prints a diagnostic; nothing is returned. -/
theorem test_pyp_rejects (R : Runtime) (pyp : par_pyp_t) (w : World) (g : Globals)
    (f : PyFun) (r : PyArrayObject)
    (hen : pyp.opyp = true)
    (hrun : R.PyRun_SimpleFile (R.fopen pyp.f_code) pyp.f_code w.globals = some g)
    (hg : g "forcepy_" = some f) (hcall : R.call_apply f (test_args R) = some r)
    (hshape : r.dims.map Int.ofNat ≠ [pyp.nb, 10]) :
    (test_pyp R pyp w).stopped = some (.exit .FAILURE)
    ∧ (test_pyp R pyp w).world.stdout.length = w.stdout.length + 1 := by
  rw [test_pyp_eq]
  simp only [test_run, hen, hrun, hg, hcall, Bool.not_true, Bool.false_eq_true, if_false]
  split_ifs with h1 h2 h3
  · simp [Res.stopped, Res.world]
  · simp [Res.stopped, Res.world]
  · simp [Res.stopped, Res.world]
  · exfalso
    apply hshape
    push_neg at h1 h2 h3
    match hd : r.dims, h1, h2, h3 with
    | [a, b], _, h2, h3 =>
      simp only [List.getD_cons_zero, List.getD_cons_succ] at h2 h3
      simp [← h2, h3]

/-- The apply calls of a run of `test_pyp` that reaches the entry point:
exactly one, with the arguments built by the fill loop. -/
theorem test_run_applyCalls (R : Runtime) (pyp : par_pyp_t) (w : World) (g : Globals) (f : PyFun)
    (hen : pyp.opyp = true)
    (hrun : R.PyRun_SimpleFile (R.fopen pyp.f_code) pyp.f_code w.globals = some g)
    (hg : g "forcepy_" = some f) :
    applyCalls (test_run R pyp w).world.trace = applyCalls w.trace ++ [(f, test_args R)] := by
  unfold applyCalls
  simp only [test_run, hen, hrun, hg, Bool.not_true, Bool.false_eq_true, if_false]
  cases R.call_apply f (test_args R) with
  | none => simp [Res.world, setup_events, alloc_events, Event.asApply]
  | some r =>
    simp only []
    split_ifs
    · simp [Res.world, setup_events, alloc_events, Event.asApply]
    · simp [Res.world, setup_events, alloc_events, Event.asApply]
    · simp [Res.world, setup_events, alloc_events, Event.asApply]
    · cases R.fopen pyp.f_code <;>
        simp [Res.world, setup_events, alloc_events, release_events, Event.asApply]

theorem test_args_calendar (R : Runtime) : CalendarOf (test_args R) 5 (test_date R) := by
  refine ⟨rfl, rfl, rfl, rfl, rfl, rfl, rfl, rfl, ?_⟩
  intro t ht
  simp [test_args, test_locals, Locals.args, filled, ht, test_date]

set_option maxRecDepth 100000 in
/-- On a result of four rows where three were negotiated, `test_pyp` takes
its `exit(FAILURE)` path and reports the expected and the received count. -/
theorem test_pyp_four :
    (test_pyp exFour { exPyp with nb := 3 } exWorld).stopped = some (.exit .FAILURE)
    ∧ (test_pyp exFour { exPyp with nb := 3 } exWorld).world.stdout
        = ["Oops. Testing forcepy_tsi failed with dummy data. "
          ++ "Returned array size is incorrect. "
          ++ "Expected 3 elements in 1st dimension, received 4. "
          ++ "Clean up the python plugin code!\n"] := by
  rw [test_pyp_eq]
  constructor
  · simp [test_run, exFour, exThree, exPyp, exGlobals, Res.stopped]
  · simp [test_run, exFour, exThree, exPyp, exGlobals, exWorld, Res.world]
    decide

/-- C6: when no output rows are configured for the call site (`pyp_` is
`NULL`), `tsa_python_plugin` and `ard_python_plugin` return `CANCEL`, a code
distinct from `SUCCESS`, whatever the other arguments are; the world is the
one they started from (no call was made, nothing was created or printed) and
the host structure is returned as it was. -/
theorem noop_when_not_configured (R : Runtime) (ts : tsa_t) (ard : Nat → ard_t) (plg : plg_t)
    (mask_ : Nat → Int) (nc nt nb : Nat) (nodata : Int) (phl : par_hl_t) (w : World)
    (hts : ts.pyp_ = none) (hplg : plg.pyp_ = none) :
    tsa_python_plugin R ts mask_ nc nt nodata phl w = .ok (.CANCEL, ts) w
    ∧ ard_python_plugin R ard plg mask_ nt nb nc nodata phl w = .ok (.CANCEL, plg) w
    ∧ RetCode.CANCEL ≠ RetCode.SUCCESS := by
  refine ⟨?_, ?_, by decide⟩
  · simp [tsa_python_plugin, hts]
  · simp [ard_python_plugin, hplg]

/-- Witness of C6 on sample inputs. -/
theorem noop_when_not_configured_witness :
    exTsOff.pyp_ = none ∧ exPlgOff.pyp_ = none
    ∧ tsa_python_plugin exEmpty exTsOff (fun _ => 1) 10 5 (-9999) (exPhl 3) exWorld
        = .ok (.CANCEL, exTsOff) exWorld
    ∧ ard_python_plugin exEmpty exArd exPlgOff (fun _ => 1) 5 6 10 (-9999) (exPhl 3) exWorld
        = .ok (.CANCEL, exPlgOff) exWorld :=
  ⟨rfl, rfl,
    (noop_when_not_configured exEmpty exTsOff exArd exPlgOff (fun _ => 1) 10 5 6 (-9999)
      (exPhl 3) exWorld rfl rfl).1,
    (noop_when_not_configured exEmpty exTsOff exArd exPlgOff (fun _ => 1) 10 5 6 (-9999)
      (exPhl 3) exWorld rfl rfl).2.1⟩

/-- C9: in a configured call of `tsa_python_plugin` or `ard_python_plugin`
whose source has been run but whose global namespace does not hold
`forcepy_`, the run ends in `exit(FAILURE)` after printing a message that
names `forcepy_`.  The calls made are exactly the module and dictionary
lookups, `fopen`, `PyRun_SimpleFile` and the failed lookup: nothing was
created (the reference count is unchanged), no `memcpy` ran and the entry
point was not called. -/
theorem missing_apply_is_fatal (R : Runtime) (ts : tsa_t) (ard : Nat → ard_t) (plg : plg_t)
    (mask_ : Nat → Int) (nc nt nb : Nat) (nodata : Int) (phl : par_hl_t) (w : World)
    (out1 out2 : Nat → Nat → Int) (g1 g2 : Globals)
    (hts : ts.pyp_ = some out1) (hplg : plg.pyp_ = some out2)
    (hrun1 : R.PyRun_SimpleFile (R.fopen phl.tsa.pyp.f_code) phl.tsa.pyp.f_code w.globals
      = some g1)
    (hrun2 : R.PyRun_SimpleFile (R.fopen phl.plg.pyp.f_code) phl.plg.pyp.f_code w.globals
      = some g2)
    (hg1 : g1 "forcepy_" = none) (hg2 : g2 "forcepy_" = none) :
    tsa_python_plugin R ts mask_ nc nt nodata phl w
      = .stop (.exit .FAILURE)
          { globals := g1, live := w.live,
            trace := w.trace ++
              [.PyImport_AddModule "__main__", .PyModule_GetDict,
               .fopen phl.tsa.pyp.f_code (R.fopen phl.tsa.pyp.f_code),
               .PyRun_SimpleFile (R.fopen phl.tsa.pyp.f_code) phl.tsa.pyp.f_code,
               .PyDict_GetItemString "forcepy_"],
            stdout := w.stdout ++ [notFound "forcepy_"] }
    ∧ ard_python_plugin R ard plg mask_ nt nb nc nodata phl w
      = .stop (.exit .FAILURE)
          { globals := g2, live := w.live,
            trace := w.trace ++
              [.PyImport_AddModule "__main__", .PyModule_GetDict,
               .fopen phl.plg.pyp.f_code (R.fopen phl.plg.pyp.f_code),
               .PyRun_SimpleFile (R.fopen phl.plg.pyp.f_code) phl.plg.pyp.f_code,
               .PyDict_GetItemString "forcepy_"],
            stdout := w.stdout ++ [notFound "forcepy_"] } := by
  constructor
  · rw [tsa_python_plugin_eq]
    simp [plugin_run, hts, hrun1, hg1, setup_events]
  · rw [ard_python_plugin_eq]
    simp [plugin_run, hplg, hrun2, hg2, setup_events]

/-- Witness of C9: sources that open and run but define nothing. -/
theorem missing_apply_is_fatal_witness :
    tsa_python_plugin exEmpty exTs (fun _ => 1) 10 5 (-9999) (exPhl 3) exWorld
      = .stop (.exit .FAILURE)
          { globals := exWorld.globals, live := 0,
            trace := [.PyImport_AddModule "__main__", .PyModule_GetDict,
               .fopen "tsa.py" (some 3), .PyRun_SimpleFile (some 3) "tsa.py",
               .PyDict_GetItemString "forcepy_"],
            stdout :=
              ["Python function \"forcepy_\" was not found. Check your python plugin code!\n"] }
    ∧ ard_python_plugin exEmpty exArd exPlg (fun _ => 1) 5 6 10 (-9999) (exPhl 3) exWorld
      = .stop (.exit .FAILURE)
          { globals := exWorld.globals, live := 0,
            trace := [.PyImport_AddModule "__main__", .PyModule_GetDict,
               .fopen "plg.py" (some 3), .PyRun_SimpleFile (some 3) "plg.py",
               .PyDict_GetItemString "forcepy_"],
            stdout :=
              ["Python function \"forcepy_\" was not found. Check your python plugin code!\n"] } :=
  missing_apply_is_fatal exEmpty exTs exArd exPlg (fun _ => 1) 10 5 6 (-9999) (exPhl 3) exWorld
    (fun _ _ => -1) (fun _ _ => -1) exWorld.globals exWorld.globals rfl rfl rfl rfl rfl rfl

/-- C3: in every configured run that resolves `forcepy_`, the entry point is
called exactly once.  The data array `ard_python_plugin` passes has shape
`(nt, nb, nc)`, element type `NPY_INT16`, and holds `ard[t].dat[b][p]` at
flat index `(t*nb + b)*nc + p`; the one `tsa_python_plugin` passes has shape
`(nt, 1, nc)` and holds `tsi_[t][p]` at flat index `t*nc + p`. -/
theorem data_layout (R : Runtime) (ts : tsa_t) (ard : Nat → ard_t) (plg : plg_t)
    (mask_ : Nat → Int) (nc nt nb : Nat) (nodata : Int) (phl : par_hl_t) (w : World)
    (out1 out2 : Nat → Nat → Int) (g1 g2 : Globals) (f1 f2 : PyFun)
    (hts : ts.pyp_ = some out1) (hplg : plg.pyp_ = some out2)
    (hrun1 : R.PyRun_SimpleFile (R.fopen phl.tsa.pyp.f_code) phl.tsa.pyp.f_code w.globals
      = some g1)
    (hrun2 : R.PyRun_SimpleFile (R.fopen phl.plg.pyp.f_code) phl.plg.pyp.f_code w.globals
      = some g2)
    (hg1 : g1 "forcepy_" = some f1) (hg2 : g2 "forcepy_" = some f2) :
    (∃ a : Args,
      applyCalls (ard_python_plugin R ard plg mask_ nt nb nc nodata phl w).world.trace
        = applyCalls w.trace ++ [(f2, a)]
      ∧ a.data.dims = [nt, nb, nc] ∧ a.data.ty = .NPY_INT16
      ∧ ∀ t b p, t < nt → b < nb → p < nc → a.data.data ((t * nb + b) * nc + p) = (ard t).dat b p)
    ∧ (∃ a : Args,
      applyCalls (tsa_python_plugin R ts mask_ nc nt nodata phl w).world.trace
        = applyCalls w.trace ++ [(f1, a)]
      ∧ a.data.dims = [nt, 1, nc] ∧ a.data.ty = .NPY_INT16
      ∧ ∀ t p, t < nt → p < nc → a.data.data (t * nc + p) = ts.tsi_ t p) := by
  constructor
  · refine ⟨ard_args R ard nt nb nc nodata phl, ?_, rfl, rfl, ?_⟩
    · rw [ard_python_plugin_eq]
      exact plugin_run_applyCalls R _ _ _ _ _ _ _ _ _ _ _ _ w out2 g2 f2 hplg hrun2 hg2
        (ard_copy_events_memcpy nb nc nt)
    · intro t b p ht hb hp
      exact ard_args_data R ard nt nb nc nodata phl t b p ht hb hp
  · refine ⟨tsa_args R ts nc nt nodata phl, ?_, rfl, rfl, ?_⟩
    · rw [tsa_python_plugin_eq]
      exact plugin_run_applyCalls R _ _ _ _ _ _ _ _ _ _ _ _ w out1 g1 f1 hts hrun1 hg1
        (tsa_copy_events_memcpy nc nt)
    · intro t p ht hp
      exact tsa_args_data R ts nc nt nodata phl t p ht hp

/-- Witness of C3: five samples, six bands, ten cells. -/
theorem data_layout_witness :
    (∃ a : Args,
      applyCalls (ard_python_plugin exThree exArd exPlg (fun _ => 1) 5 6 10 (-9999) (exPhl 3)
          exWorld).world.trace = applyCalls exWorld.trace ++ [(1, a)]
      ∧ a.data.dims = [5, 6, 10] ∧ a.data.ty = .NPY_INT16
      ∧ ∀ t b p, t < 5 → b < 6 → p < 10 → a.data.data ((t * 6 + b) * 10 + p) = (exArd t).dat b p)
    ∧ (∃ a : Args,
      applyCalls (tsa_python_plugin exThree exTs (fun _ => 1) 10 5 (-9999) (exPhl 3)
          exWorld).world.trace = applyCalls exWorld.trace ++ [(1, a)]
      ∧ a.data.dims = [5, 1, 10] ∧ a.data.ty = .NPY_INT16
      ∧ ∀ t p, t < 5 → p < 10 → a.data.data (t * 10 + p) = exTs.tsi_ t p) :=
  data_layout exThree exTs exArd exPlg (fun _ => 1) 10 5 6 (-9999) (exPhl 3) exWorld
    (fun _ _ => -1) (fun _ _ => -1)
    exGlobals exGlobals 1 1 rfl rfl rfl rfl (by decide) (by decide)

/-- C7: in every configured run that resolves `forcepy_`, the four calendar
arrays passed to the entry point have length `nt` and hold, at every index
`t < nt`, the fields `ce`, `year`, `month`, `day` of the host date of sample
`t`: `ts->d_tsi[t]` in `tsa_python_plugin`, `get_brick_date(ard[t].DAT, 0)` in
`ard_python_plugin`.  The dummy call of an enabled `test_pyp` passes the five
dates 2020-01-15 ... 2020-05-15 in the same way, with the linear day count
`date2ce` computes for each. -/
theorem calendar_passed_through (R : Runtime) (ts : tsa_t) (ard : Nat → ard_t) (plg : plg_t)
    (mask_ : Nat → Int) (nc nt nb : Nat) (nodata : Int) (phl : par_hl_t) (w : World)
    (pyp : par_pyp_t) (out1 out2 : Nat → Nat → Int) (g0 g1 g2 : Globals) (f0 f1 f2 : PyFun)
    (hen : pyp.opyp = true) (hts : ts.pyp_ = some out1) (hplg : plg.pyp_ = some out2)
    (hrun0 : R.PyRun_SimpleFile (R.fopen pyp.f_code) pyp.f_code w.globals = some g0)
    (hrun1 : R.PyRun_SimpleFile (R.fopen phl.tsa.pyp.f_code) phl.tsa.pyp.f_code w.globals
      = some g1)
    (hrun2 : R.PyRun_SimpleFile (R.fopen phl.plg.pyp.f_code) phl.plg.pyp.f_code w.globals
      = some g2)
    (hg0 : g0 "forcepy_" = some f0) (hg1 : g1 "forcepy_" = some f1)
    (hg2 : g2 "forcepy_" = some f2) :
    (∃ a : Args,
      applyCalls (tsa_python_plugin R ts mask_ nc nt nodata phl w).world.trace
        = applyCalls w.trace ++ [(f1, a)]
      ∧ CalendarOf a nt ts.d_tsi)
    ∧ (∃ a : Args,
      applyCalls (ard_python_plugin R ard plg mask_ nt nb nc nodata phl w).world.trace
        = applyCalls w.trace ++ [(f2, a)]
      ∧ CalendarOf a nt (fun t => R.get_brick_date (ard t).DAT 0))
    ∧ (∃ a : Args,
      applyCalls (test_pyp R pyp w).world.trace = applyCalls w.trace ++ [(f0, a)]
      ∧ CalendarOf a 5 (test_date R)) := by
  refine ⟨?_, ?_, ?_⟩
  · refine ⟨tsa_args R ts nc nt nodata phl, ?_, rfl, rfl, rfl, rfl, rfl, rfl, rfl, rfl, ?_⟩
    · rw [tsa_python_plugin_eq]
      exact plugin_run_applyCalls R _ _ _ _ _ _ _ _ _ _ _ _ w out1 g1 f1 hts hrun1 hg1
        (tsa_copy_events_memcpy nc nt)
    · intro t ht
      exact tsa_args_calendar R ts nc nt nodata phl t ht
  · refine ⟨ard_args R ard nt nb nc nodata phl, ?_, rfl, rfl, rfl, rfl, rfl, rfl, rfl, rfl, ?_⟩
    · rw [ard_python_plugin_eq]
      exact plugin_run_applyCalls R _ _ _ _ _ _ _ _ _ _ _ _ w out2 g2 f2 hplg hrun2 hg2
        (ard_copy_events_memcpy nb nc nt)
    · intro t ht
      exact ard_args_calendar R ard nt nb nc nodata phl t ht
  · refine ⟨test_args R, ?_, test_args_calendar R⟩
    rw [test_pyp_eq]
    exact test_run_applyCalls R pyp w g0 f0 hen hrun0 hg0

/-- Witness of C7: host dates 2020-01-15 ... 2020-05-15. -/
theorem calendar_passed_through_witness :
    (∃ a : Args,
      applyCalls (tsa_python_plugin exThree exTs (fun _ => 1) 10 5 (-9999) (exPhl 3)
          exWorld).world.trace = applyCalls exWorld.trace ++ [(1, a)]
      ∧ CalendarOf a 5 exDate)
    ∧ (∃ a : Args,
      applyCalls (ard_python_plugin exThree exArd exPlg (fun _ => 1) 5 6 10 (-9999) (exPhl 3)
          exWorld).world.trace = applyCalls exWorld.trace ++ [(1, a)]
      ∧ CalendarOf a 5 exDate)
    ∧ (∃ a : Args,
      applyCalls (test_pyp exThree exPyp exWorld).world.trace
        = applyCalls exWorld.trace ++ [(1, a)]
      ∧ CalendarOf a 5 (test_date exThree)) :=
  calendar_passed_through exThree exTs exArd exPlg (fun _ => 1) 10 5 6 (-9999) (exPhl 3) exWorld
    exPyp (fun _ _ => -1) (fun _ _ => -1) exGlobals exGlobals exGlobals 1 1 1
    rfl rfl rfl rfl rfl rfl (by decide) (by decide) (by decide)

/-- C4: round trip through `tsa_python_plugin`.  When the apply entry point is
the identity (it hands back the data buffer it was given, read as `nt` rows
of `nc` values) and the negotiated channel count is `nt`, a configured call
whose source is loaded returns `SUCCESS` and the output rows reproduce the
input: `pyp_[t][p] = tsi_[t][p]` for `t < nt`, `p < nc`. -/
theorem identity_round_trip (R : Runtime) (ts : tsa_t) (mask_ : Nat → Int) (nc nt : Nat)
    (nodata : Int) (phl : par_hl_t) (w : World) (out : Nat → Nat → Int) (fp : FILE)
    (g : Globals) (f : PyFun)
    (hts : ts.pyp_ = some out) (hnb : phl.tsa.pyp.nb = nt)
    (hl : Loaded R phl.tsa.pyp.f_code w fp g f)
    (hid : ∀ a : Args,
      R.call_apply f a = some { dims := [nt, nc], ty := .NPY_INT16, data := a.data.data }) :
    ∃ (o : Nat → Nat → Int) (w1 : World),
      tsa_python_plugin R ts mask_ nc nt nodata phl w
        = .ok (.SUCCESS, { ts with pyp_ := some o }) w1
      ∧ ∀ t p, t < nt → p < nc → o t p = ts.tsi_ t p := by
  have e : phl.tsa.pyp.nb.toNat = nt := by simp [hnb]
  have h := (tsa_python_plugin_eq R ts mask_ nc nt nodata phl w).trans
    (plugin_run_success R _ _ _ _ _ _ _ _ _ _ _ _ w out fp g f _ hts hl (hid _)
      (by simp [PyArrayObject.nshort, PyArrayObject.size, hnb]))
  rw [e] at h
  refine ⟨_, _, h, fun t p ht hp => ?_⟩
  rw [out_locals_row _ nc out nt t p ht hp, shorts_int16 _ rfl]
  exact tsa_args_data R ts nc nt nodata phl t p ht hp

/-- Witness of C4: five samples of ten cells through the identity plug-in. -/
theorem identity_round_trip_witness :
    ∃ (o : Nat → Nat → Int) (w1 : World),
      tsa_python_plugin exIdentity exTs (fun _ => 1) 10 5 (-9999) (exPhl 5) exWorld
        = .ok (.SUCCESS, { exTs with pyp_ := some o }) w1
      ∧ ∀ t p, t < 5 → p < 10 → o t p = exTs.tsi_ t p :=
  identity_round_trip exIdentity exTs (fun _ => 1) 10 5 (-9999) (exPhl 5) exWorld
    (fun _ _ => -1) 3 exGlobals 1 rfl rfl ⟨rfl, rfl, by decide⟩ (fun _ => rfl)

/-- C10: resource balance.  Counting the references the bridge holds, every
run of consecutive calls of `tsa_python_plugin` and `ard_python_plugin` that
all return `SUCCESS` ends with the count it started with.  Each call makes
eight creating calls (two scalars, the data array, four calendar arrays, and
the apply call that yields the result) and gives back exactly the eight
references `py_return`, `py_data`, `py_ce`, `py_year`, `py_month`, `py_day`,
`py_nodata`, `py_nproc`, each once. -/
theorem references_balanced (calls : List Invocation) (w w1 : World)
    (h : consecutive calls w = some w1) :
    w1.live = w.live
    ∧ ∃ l, w1.trace = w.trace ++ l
        ∧ released l = (List.replicate calls.length heldVars).flatten
        ∧ (created l).length = 8 * calls.length := by
  induction calls generalizing w with
  | nil =>
    simp only [consecutive, Option.some.injEq] at h
    subst h
    exact ⟨rfl, [], by simp, by simp [released], by simp [created]⟩
  | cons c cs ih =>
    simp only [consecutive] at h
    split at h
    · rename_i w2 hc
      obtain ⟨hl1, l1, ht1, hr1, hc1⟩ := success_balance c w w2 hc
      obtain ⟨hl2, l2, ht2, hr2, hc2⟩ := ih w2 h
      refine ⟨hl2.trans hl1, l1 ++ l2, by rw [ht2, ht1, List.append_assoc], ?_, ?_⟩
      · unfold released at hr1 hr2 ⊢
        simp [List.filterMap_append, hr1, hr2, List.replicate_succ]
      · unfold created at hc1 hc2 ⊢
        simp [List.filter_append, hc1, hc2]
        ring
    · simp at h

/-- Witness of C10: three consecutive successful invocations. -/
theorem references_balanced_witness :
    ∃ w1, consecutive exCalls exWorld = some w1 ∧ w1.live = exWorld.live
      ∧ ∃ l, w1.trace = exWorld.trace ++ l
        ∧ released l = (List.replicate 3 heldVars).flatten ∧ (created l).length = 8 * 3 :=
  exCalls_success.elim fun w1 h => ⟨w1, h, references_balanced exCalls exWorld w1 h⟩

/-- Counterexample to C5: an initializer that returns a list of length `2^31`
leaves `nb = -2^31` in the descriptor, not `2^31`; one that returns a
sequence of length 3 whose `ob_size` slot reads 0 leaves `nb = 0`, not 3. -/
theorem init_count_truncated :
    exLong.call_init 2 = some { len := 2147483648, ob_size := 2147483648 }
    ∧ (∃ w1, init_pyp exLong exPyp exWorld = .ok { exPyp with nb := -2147483648 } w1
      ∧ ({ exPyp with nb := -2147483648 } : par_pyp_t).nb ≠ 2147483648)
    ∧ exOther.call_init 2 = some { len := 3, ob_size := 0 }
    ∧ (∃ w1, init_pyp exOther exPyp exWorld = .ok { exPyp with nb := 0 } w1
      ∧ ({ exPyp with nb := 0 } : par_pyp_t).nb ≠ 3) :=
  ⟨rfl,
    ⟨_, init_pyp_success exLong exPyp exWorld 3 exGlobals 2
      { len := 2147483648, ob_size := 2147483648 } rfl rfl rfl (by decide) rfl, by decide⟩,
    rfl,
    ⟨_, init_pyp_success exOther exPyp exWorld 3 exGlobals 2 { len := 3, ob_size := 0 }
      rfl rfl rfl (by decide) rfl, by decide⟩⟩

/-- C5, amended: for an enabled descriptor whose source opens and defines
`forcepy_init`, and whose initializer returns an object `o`, `init_pyp` sets
`nb` to `(int)Py_SIZE(o)`, the content of the `ob_size` slot of `o` converted
to `int`, and changes no other field of the descriptor; when `o` keeps its
length in that slot, as a list or a tuple does, and the length is below
`2^31`, that is exactly the length of `o`.  No run of `tsa_python_plugin` or
`ard_python_plugin` looks up or calls the initializer, and a run that returns
`SUCCESS` has written the host rows `0 .. nb-1` for the `nb` cached in the
descriptor. -/
theorem init_caches_channel_count (R : Runtime) (pyp : par_pyp_t) (w : World) (fp : FILE)
    (g : Globals) (f : PyFun) (o : PyObject)
    (R2 : Runtime) (ts : tsa_t) (ard : Nat → ard_t) (plg : plg_t) (mask_ : Nat → Int)
    (nc nt nb : Nat) (nodata : Int) (phl : par_hl_t) (w2 : World)
    (hen : pyp.opyp = true) (hopen : R.fopen pyp.f_code = some fp)
    (hrun : R.PyRun_SimpleFile (some fp) pyp.f_code w.globals = some g)
    (hg : g "forcepy_init" = some f) (hcall : R.call_init f = some o) :
    (∃ w1, init_pyp R pyp w = .ok { pyp with nb := toInt32 o.ob_size } w1 ∧ w1.live = w.live)
    ∧ (o.ob_size = o.len → o.len < 2 ^ 31 → toInt32 o.ob_size = o.len)
    ∧ initCalls (tsa_python_plugin R2 ts mask_ nc nt nodata phl w2).world.trace
        = initCalls w2.trace
    ∧ initCalls (ard_python_plugin R2 ard plg mask_ nt nb nc nodata phl w2).world.trace
        = initCalls w2.trace
    ∧ (∀ x w3, tsa_python_plugin R2 ts mask_ nc nt nodata phl w2 = .ok (.SUCCESS, x) w3 →
        outRows w3.trace = outRows w2.trace ++ List.range phl.tsa.pyp.nb.toNat)
    ∧ (∀ x w3, ard_python_plugin R2 ard plg mask_ nt nb nc nodata phl w2 = .ok (.SUCCESS, x) w3 →
        outRows w3.trace = outRows w2.trace ++ List.range phl.plg.pyp.nb.toNat) := by
  have h := init_pyp_success R pyp w fp g f o hen hopen hrun hg hcall
  refine ⟨⟨_, h, rfl⟩, ?_, ?_, ?_, ?_, ?_⟩
  · intro hslot hlt
    rw [hslot]
    exact toInt32_of_lt o.len hlt
  · rw [tsa_python_plugin_eq]
    exact plugin_run_initCalls R2 _ _ _ _ _ _ _ _ _ _ _ _ w2 (tsa_copy_events_memcpy nc nt)
  · rw [ard_python_plugin_eq]
    exact plugin_run_initCalls R2 _ _ _ _ _ _ _ _ _ _ _ _ w2 (ard_copy_events_memcpy nb nc nt)
  · intro x w3 h
    rw [tsa_python_plugin_eq] at h
    exact plugin_run_outRows R2 _ _ _ _ _ _ _ _ _ _ _ _ w2 w3 x (outRows_tsa_copy nc nt) h
  · intro x w3 h
    rw [ard_python_plugin_eq] at h
    exact plugin_run_outRows R2 _ _ _ _ _ _ _ _ _ _ _ _ w2 w3 x (outRows_ard_copy nb nc nt) h

/-- Witness of C5, amended: a three-element list gives `nb = 3`. -/
theorem init_caches_channel_count_witness :
    (∃ w1, init_pyp exThree exPyp exWorld = .ok { exPyp with nb := 3 } w1
      ∧ w1.live = exWorld.live)
    ∧ initCalls (tsa_python_plugin exThree exTs (fun _ => 1) 10 5 (-9999) (exPhl 3)
        exWorld).world.trace = initCalls exWorld.trace :=
  have h := init_caches_channel_count exThree exPyp exWorld 3 exGlobals 2
    { len := 3, ob_size := 3 }
    exThree exTs exArd exPlg (fun _ => 1) 10 5 6 (-9999) (exPhl 3) exWorld
    rfl rfl rfl (by decide) rfl
  ⟨h.1, h.2.2.1⟩

/-- Evaluation for C1: with three negotiated channels, a result of four rows
is not rejected by the drivers: both return `SUCCESS` with rows 0, 1, 2
copied and the fourth row dropped.  A result of two rows is not rejected
either: the copy-out loop reads past its end.  On the four-row result
`test_pyp` does take the `exit(FAILURE)` path, reporting the expected and the
received row count. -/
theorem wrong_row_count_not_rejected :
    (∃ (o : Nat → Nat → Int) (w1 : World),
      tsa_python_plugin exFour exTs (fun _ => 1) 10 5 (-9999) (exPhl 3) exWorld
        = .ok (.SUCCESS, { exTs with pyp_ := some o }) w1
      ∧ o 0 0 = 1000 ∧ o 2 9 = 1029)
    ∧ (∃ (o : Nat → Nat → Int) (w1 : World),
      ard_python_plugin exFour exArd exPlg (fun _ => 1) 5 6 10 (-9999) (exPhl 3) exWorld
        = .ok (.SUCCESS, { exPlg with pyp_ := some o }) w1
      ∧ o 0 0 = 1000 ∧ o 2 9 = 1029)
    ∧ (tsa_python_plugin exTwo exTs (fun _ => 1) 10 5 (-9999) (exPhl 3) exWorld).stopped
        = some .undefined
    ∧ (ard_python_plugin exTwo exArd exPlg (fun _ => 1) 5 6 10 (-9999) (exPhl 3)
        exWorld).stopped = some .undefined
    ∧ (test_pyp exFour { exPyp with nb := 3 } exWorld).stopped = some (.exit .FAILURE)
    ∧ (test_pyp exFour { exPyp with nb := 3 } exWorld).world.stdout
        = ["Oops. Testing forcepy_tsi failed with dummy data. "
          ++ "Returned array size is incorrect. "
          ++ "Expected 3 elements in 1st dimension, received 4. "
          ++ "Clean up the python plugin code!\n"] := by
  have h1 := (tsa_python_plugin_eq exFour exTs (fun _ => 1) 10 5 (-9999) (exPhl 3) exWorld).trans
    (plugin_run_success exFour _ _ _ _ _ _ _ _ _ _ _ _ exWorld (fun _ _ => -1) 3 exGlobals 1
      { dims := [4, 10], ty := .NPY_INT16, data := fun i => 1000 + i }
      rfl ⟨rfl, rfl, by decide⟩ rfl (by decide))
  have h2 := (ard_python_plugin_eq exFour exArd exPlg (fun _ => 1) 5 6 10 (-9999) (exPhl 3)
      exWorld).trans
    (plugin_run_success exFour _ _ _ _ _ _ _ _ _ _ _ _ exWorld (fun _ _ => -1) 3 exGlobals 1
      { dims := [4, 10], ty := .NPY_INT16, data := fun i => 1000 + i }
      rfl ⟨rfl, rfl, by decide⟩ rfl (by decide))
  refine ⟨⟨_, _, h1, by decide, by decide⟩, ⟨_, _, h2, by decide, by decide⟩, ?_, ?_, ?_, ?_⟩
  · rw [tsa_python_plugin_eq]
    simp [plugin_run, exTwo, exThree, exTs, exPhl, exGlobals, Res.stopped, PyArrayObject.nshort,
      PyArrayObject.size]
  · rw [ard_python_plugin_eq]
    simp [plugin_run, exTwo, exThree, exPlg, exPhl, exGlobals, Res.stopped, PyArrayObject.nshort,
      PyArrayObject.size]
  · exact test_pyp_four.1
  · exact test_pyp_four.2

end Force
